import Mathlib

/-!
Verification development for the phase-to-phase distance calculation
scripts (`calculations.py`, `calculations-copy.py`,
`wind_calculations_new.py`).

The spreadsheet layer is modelled shallowly:

* a cell carries either a numeric value (`some x`, a real number standing
  for the float in the source) or the missing / not-a-number sentinel
  (`none`, pandas `NaN`; empty cells and values rejected by the
  `pd.to_numeric(errors="coerce")` coercion of the source both land here);
* a row is a total valuation of column names (in a pandas `DataFrame`
  every row carries a value — possibly `NaN` — for every column);
* a `DataFrame` is the ordered list of column names plus the list of rows;
  looking up a column that is not in the header raises (`KeyError`), which
  is modelled with `Except`.

Arithmetic on cells propagates the sentinel exactly as pandas object
arithmetic does (missing operands are masked and yield `NaN`); the
row-wise maximum `df[[c1, c2]].max(axis=1)` skips missing values
(`skipna=True`, the pandas default).  `np.sqrt` is modelled with
`Real.sqrt`; the `NaN` that numpy returns for a negative argument is not
modelled (all distance/sag data of the application is non-negative).

Regular-expression matching in the source is re-implemented character by
character with Python's leftmost / lazy / greedy backtracking semantics
for the concrete patterns involved.
-/

namespace PD

/-- A spreadsheet cell in the numeric domain of the calculation: `some x`
is a numeric value, `none` is the missing / NaN sentinel. -/
abbrev Cell := Option ℝ

/-- A sheet row: a total valuation of column names. -/
abbrev Row := String → Cell

/-- A tabular sheet: header (ordered column names) plus rows. -/
structure DataFrame where
  cols : List String
  rows : List Row

/-- Functional update of one field of a row. -/
def updR (r : Row) (c : String) (v : Cell) : Row :=
  fun c' => if c' = c then v else r c'

/-- Adding a column name to a header: pandas keeps the position of an
existing column and appends a new one at the end. -/
def addColName (cols : List String) (c : String) : List String :=
  if c ∈ cols then cols else cols ++ [c]

/-- Vectorized column assignment `df[c] = f(row)`: the new value of the
column in each row is computed from that row alone. -/
def setColF (df : DataFrame) (c : String) (f : Row → Cell) : DataFrame :=
  ⟨addColName df.cols c, df.rows.map (fun r => updR r c (f r))⟩

/-- Scalar cell assignment `df.loc[i, c] = v` (0-based positional index,
which coincides with the label after `reset_index(drop=True)`). -/
def setRowAt : List Row → ℕ → String → Cell → List Row
  | [], _, _, _ => []
  | r :: rs, 0, c, v => updR r c v :: rs
  | r :: rs, n + 1, c, v => r :: setRowAt rs n c v

/-- Addition on cells, `NaN`-propagating. -/
noncomputable def cellAdd : Cell → Cell → Cell
  | some x, some y => some (x + y)
  | _, _ => none

/-- Subtraction on cells, `NaN`-propagating. -/
noncomputable def cellSub : Cell → Cell → Cell
  | some x, some y => some (x - y)
  | _, _ => none

/-- Multiplication on cells, `NaN`-propagating. -/
noncomputable def cellMul : Cell → Cell → Cell
  | some x, some y => some (x * y)
  | _, _ => none

/-- Row-wise maximum of two cells, as computed by
`df[[c1, c2]].max(axis=1)`: missing values are skipped
(`skipna=True`, the pandas default), so the result is missing only when
both operands are. -/
noncomputable def cellMax : Cell → Cell → Cell
  | some x, some y => some (max x y)
  | some x, none => some x
  | none, some y => some y
  | none, none => none

/-- `np.sqrt` on a cell (`Real.sqrt`; see the module comment about
negative arguments). -/
noncomputable def cellSqrt (c : Cell) : Cell := c.map Real.sqrt

/-- Strict comparison `a > b` of two scalar cells as evaluated by
`np.where(a > b, …)`: any comparison involving `NaN` is false. -/
noncomputable def cellGtB : Cell → Cell → Bool
  | some x, some y => decide (y < x)
  | _, _ => false

/-! ### Character-level helpers for the textual grammars -/

/-- ASCII decimal digit test (`\d` on the data of this application). -/
def isDigitC (c : Char) : Bool := '0' ≤ c && c ≤ '9'

/-- Character class `[0-9\-]` of the wind sheet-name pattern. -/
def isClassC (c : Char) : Bool := isDigitC c || c = '-'

/-- Maximal-munch run of decimal digits (greedy `\d+`). -/
def takeDigits : List Char → List Char × List Char
  | [] => ([], [])
  | c :: cs =>
    if isDigitC c then
      let p := takeDigits cs
      (c :: p.1, p.2)
    else ([], c :: cs)

/-- Maximal-munch run of `[0-9\-]` characters (greedy `[0-9\-]+`). -/
def takeClass : List Char → List Char × List Char
  | [] => ([], [])
  | c :: cs =>
    if isClassC c then
      let p := takeClass cs
      (c :: p.1, p.2)
    else ([], c :: cs)

/-- Value of a digit string under Python `int`. -/
def digitsToNat (l : List Char) : ℕ :=
  l.foldl (fun n c => 10 * n + (c.toNat - '0'.toNat)) 0

/-- Match a literal pattern case-insensitively (the `re.I` flag of
`FILE_RE`), returning the rest of the input. -/
def stripCI : List Char → List Char → Option (List Char)
  | [], l => some l
  | _ :: _, [] => none
  | p :: ps, c :: cs => if c.toLower = p.toLower then stripCI ps cs else none

/-- Match a literal pattern case-sensitively, returning the rest. -/
def stripLit : List Char → List Char → Option (List Char)
  | [], l => some l
  | _ :: _, [] => none
  | p :: ps, c :: cs => if c = p then stripLit ps cs else none

/-- Exactly `n` decimal digits (`\d{n}`). -/
def takeDigitsN : ℕ → List Char → Option (List Char × List Char)
  | 0, l => some ([], l)
  | _ + 1, [] => none
  | n + 1, c :: cs =>
    if isDigitC c then (takeDigitsN n cs).map (fun p => (c :: p.1, p.2))
    else none

/-! ### Identifier parsing (`calculations.py` / `calculations-copy.py`) -/

/-- Circuit membership table 1 (`CIRCUIT_1 = {41, 42, 43}`). -/
def CIRCUIT_1 : List ℕ := [41, 42, 43]

/-- Circuit membership table 2 (`CIRCUIT_2 = {44, 45, 46}`). -/
def CIRCUIT_2 : List ℕ := [44, 45, 46]

/-- Symbolic circuit id for earth-wire / unknown towers. -/
def EARTH_WIRE : ℕ := 0

/-- `_which_circuit`: 1 for `CIRCUIT_1`, 2 for `CIRCUIT_2`, otherwise
`EARTH_WIRE` (0). -/
def whichCircuit (tower : ℕ) : ℕ :=
  if tower ∈ CIRCUIT_1 then 1
  else if tower ∈ CIRCUIT_2 then 2
  else EARTH_WIRE

/-- `_parse_sheet_name`: `re.match` of `(\d+)-(\d+)_(\d+)-(\d+)$` on the
sheet name (each `\d+` greedy; since the separators are not digits the
match is deterministic maximal munch; the Python subtlety that `$` also
matches just before a final newline is not modelled — sheet names carry
no newlines). -/
def parseSheetName (s : String) : Option (ℕ × ℕ × ℕ × ℕ) :=
  match takeDigits s.data with
  | ([], _) => none
  | (a, restA) =>
    match restA with
    | [] => none
    | c1 :: rest1 =>
      if c1 = '-' then
        match takeDigits rest1 with
        | ([], _) => none
        | (b, restB) =>
          match restB with
          | [] => none
          | c2 :: rest2 =>
            if c2 = '_' then
              match takeDigits rest2 with
              | ([], _) => none
              | (c, restC) =>
                match restC with
                | [] => none
                | c3 :: rest3 =>
                  if c3 = '-' then
                    match takeDigits rest3 with
                    | ([], _) => none
                    | (d, restD) =>
                      if restD = [] then
                        some (digitsToNat a, digitsToNat b,
                              digitsToNat c, digitsToNat d)
                      else none
                  else none
            else none
      else none

/-- One attempt of `FILE_RE` =
`Cond_10C_(TR\d{4}a\d{3})_(\d{3})\.xlsx$` (flag `re.I`) at a given
position: all literals case-insensitive, the whole pattern must reach the
end of the string; group 1 is returned in its original spelling. -/
def matchCondFile (l : List Char) : Option (String × String) := do
  let r1 ← stripCI "Cond_10C_".data l
  let r2 ← stripCI "TR".data r1
  let (_, r3) ← takeDigitsN 4 r2
  let r4 ← stripCI "a".data r3
  let (_, r5) ← takeDigitsN 3 r4
  let r6 ← stripCI "_".data r5
  let (g2, r7) ← takeDigitsN 3 r6
  let r8 ← stripCI ".xlsx".data r7
  if r8 = [] then some (String.mk (r1.take 10), String.mk g2) else none

/-- `re.search` of `FILE_RE`: try every start position, leftmost first. -/
def searchCond : List Char → Option (String × String)
  | [] => none
  | c :: rest => (matchCondFile (c :: rest)).orElse (fun _ => searchCond rest)

/-- `_load_metadata`: extract `(start_span, end_span_suffix)` from the
workbook file name (the caller passes the basename). -/
def loadMetadata (name : String) : Except String (String × String) :=
  match searchCond name.data with
  | some p => .ok p
  | none => .error ("Filename " ++ name ++ " does not match expected pattern.")

/-! ### Column resolution and the per-sheet calculation -/

/-- The two accepted names for the distance/sag column of span `a-b`. -/
def distCandidates (a b : ℕ) : List String :=
  ["Straight Distance of " ++ toString a ++ "-" ++ toString b,
   "Sag of " ++ toString a ++ "-" ++ toString b]

/-- `_pick_distance_col`: first accepted column name present in the
header; `KeyError` if neither exists. -/
def pickDistanceCol (df : DataFrame) (a b : ℕ) : Except String String :=
  match (distCandidates a b).find? (fun c => df.cols.contains c) with
  | some c => .ok c
  | none =>
    .error ("No distance/sag column found for span " ++ toString a ++ "-"
            ++ toString b)

/-- `Series.idxmin` starting at positional index `i`: position of the
first occurrence of the minimum value, skipping missing cells; `none`
when every cell is missing. -/
noncomputable def idxminFrom : ℕ → List Cell → Option (ℕ × ℝ)
  | _, [] => none
  | i, none :: cs => idxminFrom (i + 1) cs
  | i, some v :: cs =>
    (idxminFrom (i + 1) cs).elim (some (i, v))
      (fun p => if p.2 < v then some p else some (i, v))

/-- `Series.idxmin` together with the minimum value itself. -/
noncomputable def idxmin (cells : List Cell) : Option (ℕ × ℝ) :=
  idxminFrom 0 cells

/-- `Series.first_valid_index` starting at positional index `i`. -/
def firstSomeIdxFrom : ℕ → List Cell → Option ℕ
  | _, [] => none
  | i, c :: cs => if c.isSome then some i else firstSomeIdxFrom (i + 1) cs

/-- `Series.first_valid_index`: position of the first non-missing cell. -/
def firstSomeIdx (cells : List Cell) : Option ℕ :=
  firstSomeIdxFrom 0 cells

/-- The worst-case summary record built for the results workbook
(`calculations-copy.py`, `process_sheet`). -/
structure Summary where
  row_num : ℕ
  station : Cell
  sag : Cell
  lk : Cell
  beta : Cell
  k_factor : Cell
  c1 : Cell
  c2 : Cell
  req : Cell
  cur : Cell
  ok_flag : String

/-- The derived-column stage of `process_sheet`: the sheet after the
assignments of `sag`, `K`, `LK`, `C1`, `C2` and `required-distance`
(source lines 153–199 of `calculations-copy.py`), given the two resolved
distance/sag column names `ca` and `cb`.  The
`pd.to_numeric(errors="coerce")` step of the source is the identity on
this cell domain (cells already carry the numeric-or-NaN abstraction)
and is therefore not repeated here. -/
noncomputable def dfStage4 (df : DataFrame) (d1 d3 : ℕ) (ca cb : String) :
    DataFrame :=
  let df1 := setColF df "sag" (fun r => cellMax (r ca) (r cb))
  let df2 := setColF df1 "K"
    (fun r => (r "Beta Angle (°)").map (fun β => -(0.1 / 90) * β + 0.75))
  let df3 := setColF df2 "LK" (fun _ => some 2.0)
  if whichCircuit d1 = EARTH_WIRE ∨ whichCircuit d3 = EARTH_WIRE then
    -- earth-wire rule: required distance = C1 only
    let dfa := setColF df3 "C1" (fun _ => some 1.93)
    let dfb := setColF dfa "C2" (fun _ => some 0)
    setColF dfb "required-distance" (fun r => r "C1")
  else
    let dfb :=
      if whichCircuit d1 = whichCircuit d3 then
        setColF (setColF df3 "C1" (fun _ => some 1.93)) "C2"
          (fun _ => some 0)
      else
        setColF (setColF df3 "C1" (fun _ => some 0)) "C2"
          (fun _ => some 2.29)
    setColF dfb "required-distance"
      (fun r =>
        cellAdd
          (cellAdd
            (cellMul (r "K") (cellSqrt (cellAdd (r "sag") (r "LK"))))
            (r "C1"))
          (r "C2"))

/-- `process_sheet` of `calculations-copy.py` (the formula pipeline is
identical in `calculations.py`, which merely omits the summary record):
resolve the two distance/sag columns, add `sag`, `K`, `LK`, `C1`, `C2`,
`required-distance` (see `dfStage4`), `diff` and `worst-case`, and build
the summary from the worst-case row.  Column lookups on names missing
from the header raise (`Except.error`); reading the beta-angle column
while building `K` is the first such lookup, so its `KeyError` check
comes right after the `sag` assignment. -/
noncomputable def process_sheet (df : DataFrame) (d1 d2 d3 d4 : ℕ) :
    Except String (DataFrame × Summary) :=
  match pickDistanceCol df d1 d2 with
  | .error e => .error e
  | .ok col_sd12 =>
  match pickDistanceCol df d3 d4 with
  | .error e => .error e
  | .ok col_sd34 =>
  if "Beta Angle (°)" ∈ addColName df.cols "sag" then
    let df4 := dfStage4 df d1 d3 col_sd12 col_sd34
    if "Distance Between Powerlines" ∈ df4.cols then
      let df5 := setColF df4 "diff"
        (fun r => cellSub (r "Distance Between Powerlines")
                          (r "required-distance"))
      match idxmin (df5.rows.map (fun r => r "diff")) with
      | none => .error "idxmin: all diff values are missing"
      | some (wi, wv) =>
        let df6 := setColF df5 "worst-case" (fun _ => none)
        let df7 : DataFrame := ⟨df6.cols, setRowAt df6.rows wi "worst-case" (some wv)⟩
        match firstSomeIdx (df7.rows.map (fun r => r "worst-case")) with
        | none => .error "first_valid_index: no worst-case value"
        | some fi =>
          if "Station" ∈ df7.cols then
            let rw := df7.rows.getD fi (fun _ => none)
            .ok (df7,
              { row_num := fi + 2
                station := rw "Station"
                sag := rw "sag"
                lk := rw "LK"
                beta := rw "Beta Angle (°)"
                k_factor := rw "K"
                c1 := rw "C1"
                c2 := rw "C2"
                req := rw "required-distance"
                cur := rw "Distance Between Powerlines"
                ok_flag :=
                  if cellGtB (rw "required-distance")
                      (rw "Distance Between Powerlines") then "not ok"
                  else "ok" })
          else .error "KeyError: Station"
    else .error "KeyError: Distance Between Powerlines"
  else .error "KeyError: Beta Angle (°)"

/-! ### Workbook-level processing and the results-workbook precondition -/

/-- Template sheet name for phase-phase results. -/
def PH_PH_SHEET : String := "Result_Dist_Ph-Ph (10ºC)"

/-- Template sheet name for phase-earth-wire results. -/
def PH_EW_SHEET : String := "Result_Dist_Ph-EW"

/-- The file-system state the results-workbook precondition depends on:
whether the workbook file exists and, if so, its sheet names. -/
structure ResultsEnv where
  pathExists : Bool
  sheetNames : List String

/-- `_open_results_wb`: fail if the workbook file does not exist or if a
required template sheet is missing. -/
def openResultsWb (env : ResultsEnv) : Except String (List String) :=
  if env.pathExists = false then
    .error "Results workbook does not exist. Create it manually with the template sheets first."
  else
    let missing := [PH_PH_SHEET, PH_EW_SHEET].filter
      (fun n => ¬ n ∈ env.sheetNames)
    if missing = [] then .ok env.sheetNames
    else .error "Results workbook is missing required template sheet(s)."

/-- One sheet of a source workbook: its name and tabular content. -/
structure SheetData where
  name : String
  df : DataFrame

/-- Outcome of the per-sheet loop body of `process_workbook`: sheets with
non-conforming names are skipped silently, sheets whose processing raises
are skipped with a printed diagnostic; only a fully processed sheet
produces output. -/
noncomputable def sheetOutcome (d : SheetData) : Option (DataFrame × Summary) :=
  match parseSheetName d.name with
  | none => none
  | some (d1, d2, d3, d4) =>
    match process_sheet d.df d1 d2 d3 d4 with
    | .error _ => none
    | .ok p => some p

/-- `process_workbook` of `calculations-copy.py`, abstracted to what the
claims depend on: parse the filename metadata, then open the results
workbook (this precedes any access to the source workbook's sheets), then
process every sheet.  The appending of summary rows into the results
workbook is elided — it consumes the returned summaries. -/
noncomputable def processWorkbook (env : ResultsEnv) (fileName : String)
    (sheets : List SheetData) :
    Except String (List (String × Option (DataFrame × Summary))) :=
  match loadMetadata fileName with
  | .error e => .error e
  | .ok _ =>
    match openResultsWb env with
    | .error e => .error e
    | .ok _ => .ok (sheets.map (fun d => (d.name, sheetOutcome d)))

/-- `main`: every matching file is processed independently; an exception
raised for one file is caught, printed and the run continues. -/
noncomputable def mainRun (env : ResultsEnv)
    (files : List (String × List SheetData)) :
    List (Except String (List (String × Option (DataFrame × Summary)))) :=
  files.map (fun f => processWorkbook env f.1 f.2)

/-! ### Wind-pressure variant (`wind_calculations_new.py`) -/

/-- Circuit group 1 of the wind variant (`C_GROUP_1`, two-digit strings). -/
def C_GROUP_1 : List String := ["41", "42", "43"]

/-- Circuit group 2 of the wind variant (`C_GROUP_2`). -/
def C_GROUP_2 : List String := ["44", "45", "46"]

/-- Exactly two decimal digits (`\d{2}`), returned with the rest. -/
def twoDigits : List Char → Option (List Char × List Char)
  | a :: b :: rest =>
    if isDigitC a && isDigitC b then some ([a, b], rest) else none
  | _ => none

/-- Head `(\d{2})-\d{2}` of the pattern of `add_distance_columns`,
capturing the first group. -/
def headDDdashDD (l : List Char) : Option (String × List Char) :=
  match twoDigits l with
  | none => none
  | some (g, rest) =>
    match rest with
    | c :: rest1 =>
      if c = '-' then
        match twoDigits rest1 with
        | none => none
        | some (_, rest2) => some (String.mk g, rest2)
      else none
    | [] => none

/-- One attempt of the suffix `_W\d+_(\d{2})-\d{2}` at a given position
(`\d+` greedy; the following literal `_` is not a digit, so no
backtracking inside `\d+` can succeed); trailing input is ignored. -/
def windTailMatch (l : List Char) : Option String :=
  match l with
  | c1 :: c2 :: rest =>
    if c1 = '_' && c2 = 'W' then
      match takeDigits rest with
      | ([], _) => none
      | (_ :: _, rest1) =>
        match rest1 with
        | c3 :: rest2 =>
          if c3 = '_' then
            match twoDigits rest2 with
            | none => none
            | some (g, rest3) =>
              match rest3 with
              | c4 :: rest4 =>
                if c4 = '-' then
                  match twoDigits rest4 with
                  | none => none
                  | some _ => some (String.mk g)
                else none
              | [] => none
          else none
        | [] => none
    else none
  | _ => none

/-- Greedy `.*` before the suffix: the latest position at which the
suffix matches wins; `.` cannot cross a newline, so positions past a
newline are unreachable. -/
def findLastWindTail : List Char → Option String
  | [] => none
  | c :: rest =>
    ((if c = '\n' then none else findLastWindTail rest)).orElse
      (fun _ => windTailMatch (c :: rest))

/-- `re.search` of `(\d{2})-\d{2}.*_W\d+_(\d{2})-\d{2}`: leftmost start
position whose head matches and whose suffix occurs later in the line. -/
def searchWind : List Char → Option (String × String)
  | [] => none
  | c :: rest =>
    (match headDDdashDD (c :: rest) with
     | none => none
     | some (d1, r) =>
       match findLastWindTail r with
       | none => none
       | some d3 => some (d1, d3)).orElse
      (fun _ => searchWind rest)

/-- Fall-back `re.match` of `59-39_W\d+_(\d{2})-\d{2}_W\d+` used by
`add_distance_columns`; both returned codes are its single group. -/
def matchWindM2 (l : List Char) : Option (String × String) := do
  let r1 ← stripLit "59-39_W".data l
  match takeDigits r1 with
  | ([], _) => none
  | (_ :: _, r2) =>
    match r2 with
    | c :: r3 =>
      if c = '_' then
        match twoDigits r3 with
        | none => none
        | some (g, r4) =>
          match r4 with
          | c2 :: r5 =>
            if c2 = '-' then
              match twoDigits r5 with
              | none => none
              | some (_, r6) => do
                let r7 ← stripLit "_W".data r6
                match takeDigits r7 with
                | ([], _) => none
                | (_ :: _, _) => some (String.mk g, String.mk g)
            else none
          | [] => none
      else none
    | [] => none

/-- The sheet-name digit extraction of `add_distance_columns`: the
primary search, then the fall-back match. -/
def windParseDigits (name : String) : Option (String × String) :=
  (searchWind name.data).orElse (fun _ => matchWindM2 name.data)

/-- Same-circuit test of the wind variant: both codes in `C_GROUP_1` or
both in `C_GROUP_2`. -/
def sameGroupB (d1 d3 : String) : Bool :=
  (C_GROUP_1.contains d1 && C_GROUP_1.contains d3) ||
  (C_GROUP_2.contains d1 && C_GROUP_2.contains d3)

/-- `add_distance_columns`: parse the endpoint codes from the sheet name
(raising `ValueError` if neither pattern applies), then add the constant
columns `C3`, `C4` and the row-wise maximum column `Required distance`. -/
noncomputable def add_distance_columns (df : DataFrame) (sheetName : String) :
    Except String DataFrame :=
  match windParseDigits sheetName with
  | none => .error ("Cannot parse digits from " ++ sheetName)
  | some (d1, d3) =>
    let same_circuit := sameGroupB d1 d3
    let dfa := setColF df "C3" (fun _ => some (if same_circuit then 1.35 else 0))
    let dfb := setColF dfa "C4" (fun _ => some (if same_circuit then 0 else 1.60))
    .ok (setColF dfb "Required distance" (fun r => cellMax (r "C3") (r "C4")))

/-- Suffix `_([0-9\-]+_W\d+)` of `swap_sheet_name`'s pattern at a given
position, returning group 2 (`[0-9\-]+` and the final `\d+` are greedy;
the characters that follow each run are not in the respective class, so
the match is deterministic); trailing input is ignored. -/
def swapTail (l : List Char) : Option (List Char) :=
  match l with
  | c :: r1 =>
    if c = '_' then
      match takeClass r1 with
      | ([], _) => none
      | (cls, r2) =>
        match r2 with
        | c2 :: c3 :: r3 =>
          if c2 = '_' && c3 = 'W' then
            match takeDigits r3 with
            | ([], _) => none
            | (ds, _) => some (cls ++ c2 :: c3 :: ds)
          else none
        | _ => none
    else none
  | [] => none

/-- Scan of the lazy group `(.+?_W\d+)` of `swap_sheet_name`: `acc` holds
the characters consumed by `.+?` so far (at least one); at each position
first try to finish group 1 with `_W\d+` and match the suffix, otherwise
let `.+?` swallow one more (non-newline) character. -/
def swapScan (acc : List Char) : List Char → Option (List Char × List Char)
  | [] => none
  | c :: cs =>
    (if c = '_' then
       match cs with
       | c2 :: r =>
         if c2 = 'W' then
           match takeDigits r with
           | ([], _) => none
           | (ds, r2) =>
             match swapTail r2 with
             | none => none
             | some g2 => some (acc ++ c :: c2 :: ds, g2)
         else none
       | [] => none
     else none).orElse
      (fun _ => if c = '\n' then none else swapScan (acc ++ [c]) cs)

/-- `swap_sheet_name`: `re.match` of `(.+?_W\d+)_([0-9\-]+_W\d+)`; on a
match return `"{group2}_{group1}"`, otherwise the input unchanged. -/
def swap_sheet_name (s : String) : String :=
  match s.data with
  | [] => s
  | c :: cs =>
    if c = '\n' then s
    else
      match swapScan [c] cs with
      | some (g1, g2) => String.mk (g2 ++ '_' :: g1)
      | none => s

/-- Well-formed wind sheet name in the sense of claim C10: exactly
`<a>_W<p1>_<b>_W<p2>` with `a`, `b` non-empty strings of digits and
hyphens and `p1`, `p2` non-empty digit strings.  (The decomposition is
unique, so greedy munching decides it.) -/
def wellFormedWindName (s : String) : Bool :=
  match takeClass s.data with
  | ([], _) => false
  | (_, r1) =>
    match r1 with
    | c1 :: c2 :: r2 =>
      if c1 = '_' && c2 = 'W' then
        match takeDigits r2 with
        | ([], _) => false
        | (_, r3) =>
          match r3 with
          | c3 :: r4 =>
            if c3 = '_' then
              match takeClass r4 with
              | ([], _) => false
              | (_, r5) =>
                match r5 with
                | c4 :: c5 :: r6 =>
                  if c4 = '_' && c5 = 'W' then
                    match takeDigits r6 with
                    | ([], _) => false
                    | (_, r7) => r7 = []
                  else false
                | _ => false
            else false
          | [] => false
      else false
    | _ => false

/-! ### Model-level descriptions of the computed columns -/

/-- The geometry factor `K` as a function of the beta-angle cell. -/
noncomputable def cellK (c : Cell) : Cell :=
  c.map (fun β => -(0.1 / 90) * β + 0.75)

/-- The `C1` constant chosen by the circuit comparison of `d1` and `d3`. -/
noncomputable def c1val (d1 d3 : ℕ) : ℝ :=
  if whichCircuit d1 = EARTH_WIRE ∨ whichCircuit d3 = EARTH_WIRE then 1.93
  else if whichCircuit d1 = whichCircuit d3 then 1.93
  else 0

/-- The `C2` constant chosen by the circuit comparison of `d1` and `d3`. -/
noncomputable def c2val (d1 d3 : ℕ) : ℝ :=
  if whichCircuit d1 = EARTH_WIRE ∨ whichCircuit d3 = EARTH_WIRE then 0
  else if whichCircuit d1 = whichCircuit d3 then 0
  else 2.29

/-- The required-distance cell of one row, as a function of the input row:
the flat earth-wire threshold, or `K * sqrt(sag + LK) + C1 + C2`. -/
noncomputable def modelRequired (d1 d3 : ℕ) (ca cb : String) (r : Row) :
    Cell :=
  if whichCircuit d1 = EARTH_WIRE ∨ whichCircuit d3 = EARTH_WIRE then
    some 1.93
  else
    cellAdd
      (cellAdd
        (cellMul (cellK (r "Beta Angle (°)"))
          (cellSqrt (cellAdd (cellMax (r ca) (r cb)) (some 2.0))))
        (some (c1val d1 d3)))
      (some (c2val d1 d3))

/-- The diff cell of one row: measured distance minus required distance. -/
noncomputable def modelDiff (d1 d3 : ℕ) (ca cb : String) (r : Row) : Cell :=
  cellSub (r "Distance Between Powerlines") (modelRequired d1 d3 ca cb r)

/-- The eight column names written by `process_sheet`, in write order. -/
def augNames : List String :=
  ["sag", "K", "LK", "C1", "C2", "required-distance", "diff", "worst-case"]


/-! ### Concrete witness sheets used by the claim witnesses -/

/-- Witness sheet for claim C1: one fully numeric row, endpoints
`41-42` / `43-44` (both in circuit group 1). -/
noncomputable def wdfC1 : DataFrame :=
  ⟨["Station", "Beta Angle (°)", "Distance Between Powerlines",
    "Straight Distance of 41-42", "Straight Distance of 43-44"],
   [fun c =>
      if c = "Station" then some 100
      else if c = "Beta Angle (°)" then some 0
      else if c = "Distance Between Powerlines" then some 5
      else if c = "Straight Distance of 41-42" then some 3
      else if c = "Straight Distance of 43-44" then some 2
      else none]⟩

/-- Witness sheet for claim C2: one row, earth-wire endpoint `59`. -/
noncomputable def wdfC2 : DataFrame :=
  ⟨["Station", "Beta Angle (°)", "Distance Between Powerlines",
    "Straight Distance of 59-39", "Straight Distance of 41-42"],
   [fun c =>
      if c = "Station" then some 7
      else if c = "Beta Angle (°)" then some 10
      else if c = "Distance Between Powerlines" then some 5
      else if c = "Straight Distance of 59-39" then some 3
      else if c = "Straight Distance of 41-42" then some 2
      else none]⟩

/-- Witness sheet for claim C3: one row, earth-wire endpoint `59`. -/
noncomputable def wdfC3 : DataFrame :=
  ⟨["Station", "Beta Angle (°)", "Distance Between Powerlines",
    "Straight Distance of 59-39", "Straight Distance of 41-42"],
   [fun c =>
      if c = "Station" then some 1
      else if c = "Beta Angle (°)" then some 20
      else if c = "Distance Between Powerlines" then some 6
      else if c = "Straight Distance of 59-39" then some 4
      else if c = "Straight Distance of 41-42" then some 1
      else none]⟩

/-- Witness sheet for claim C5: one row, earth-wire endpoint `59`. -/
noncomputable def wdfC5 : DataFrame :=
  ⟨["Station", "Beta Angle (°)", "Distance Between Powerlines",
    "Straight Distance of 59-39", "Straight Distance of 41-42"],
   [fun c =>
      if c = "Station" then some 2
      else if c = "Beta Angle (°)" then some 0
      else if c = "Distance Between Powerlines" then some 9
      else if c = "Straight Distance of 59-39" then some 2
      else if c = "Straight Distance of 41-42" then some 3
      else none]⟩

/-- The required-distance cell of row `i` of the sheet returned by a
`process_sheet` run (missing when the run failed). -/
noncomputable def reqCellAt (e : Except String (DataFrame × Summary))
    (i : ℕ) : Cell :=
  match e with
  | .ok p => (p.1.rows.getD i (fun _ => none)) "required-distance"
  | .error _ => none

/-- The diff cell of row `i` of the sheet returned by a `process_sheet`
run (missing when the run failed). -/
noncomputable def diffCellAt (e : Except String (DataFrame × Summary))
    (i : ℕ) : Cell :=
  match e with
  | .ok p => (p.1.rows.getD i (fun _ => none)) "diff"
  | .error _ => none

/-- Counterexample sheet for claim C7: endpoints `41-42` / `44-45` (two
different real circuits); row 0 is missing its beta angle, row 1 is
missing its value in the `Straight Distance of 41-42` column but has all
other formula inputs. -/
noncomputable def cdfC7 : DataFrame :=
  ⟨["Station", "Beta Angle (°)", "Distance Between Powerlines",
    "Straight Distance of 41-42", "Straight Distance of 44-45"],
   [fun c =>
      if c = "Station" then some 0
      else if c = "Distance Between Powerlines" then some 5
      else if c = "Straight Distance of 41-42" then some 3
      else if c = "Straight Distance of 44-45" then some 4
      else none,
    fun c =>
      if c = "Station" then some 1
      else if c = "Beta Angle (°)" then some 0
      else if c = "Distance Between Powerlines" then some 5
      else if c = "Straight Distance of 44-45" then some 7
      else none]⟩

/-- Witness sheet for claim C9: both distance/sag columns are present
but the `Beta Angle (°)` column is absent. -/
noncomputable def wdfC9 : DataFrame :=
  ⟨["Station", "Distance Between Powerlines",
    "Straight Distance of 59-39", "Straight Distance of 41-42"],
   [fun c =>
      if c = "Station" then some 3
      else if c = "Distance Between Powerlines" then some 5
      else if c = "Straight Distance of 59-39" then some 2
      else if c = "Straight Distance of 41-42" then some 1
      else none]⟩

/-- Witness sheet for claim C4: one all-empty row (the wind constants do
not read any input column). -/
noncomputable def wdfC4 : DataFrame :=
  ⟨["Station", "Distance Between Powerlines"], [fun _ => none]⟩

/-- Whether the `swap_sheet_name` pattern matches the name (the guard of
the swap: a failed `re.match` returns the input unchanged). -/
def swapMatches (s : String) : Bool :=
  match s.data with
  | [] => false
  | c :: cs => if c = '\n' then false else (swapScan [c] cs).isSome

/-! ### Basic lemmas about the spreadsheet model -/

theorem updR_self (r : Row) (c : String) (v : Cell) : updR r c v c = v := by
  simp [updR]

theorem updR_ne (r : Row) (c : String) (v : Cell) {c' : String}
    (h : c' ≠ c) : updR r c v c' = r c' := by
  simp [updR, h]

theorem mem_addColName {c' : String} (cols : List String) (c : String) :
    c' ∈ addColName cols c ↔ c' ∈ cols ∨ c' = c := by
  unfold addColName
  by_cases h : c ∈ cols
  · simp only [if_pos h]
    constructor
    · exact fun hm => Or.inl hm
    · rintro (hm | rfl)
      · exact hm
      · exact h
  · simp [if_neg h]

theorem setColF_cols (df : DataFrame) (c : String) (f : Row → Cell) :
    (setColF df c f).cols = addColName df.cols c := rfl

theorem setColF_rows (df : DataFrame) (c : String) (f : Row → Cell) :
    (setColF df c f).rows = df.rows.map (fun r => updR r c (f r)) := rfl

theorem setRowAt_length (rs : List Row) (i : ℕ) (c : String) (v : Cell) :
    (setRowAt rs i c v).length = rs.length := by
  induction rs generalizing i with
  | nil => rfl
  | cons r rs ih =>
    cases i with
    | zero => simp [setRowAt]
    | succ n => simp [setRowAt, ih]

theorem setRowAt_get? (rs : List Row) (i : ℕ) (c : String) (v : Cell)
    (j : ℕ) :
    (setRowAt rs i c v).get? j =
      if j = i then (rs.get? j).map (fun r => updR r c v)
      else rs.get? j := by
  induction rs generalizing i j with
  | nil => simp [setRowAt]
  | cons r rs ih =>
    cases i with
    | zero =>
      cases j with
      | zero => simp [setRowAt]
      | succ k => simp [setRowAt]
    | succ n =>
      cases j with
      | zero => simp [setRowAt]
      | succ k =>
        simp only [setRowAt, List.get?]
        rw [ih n k]
        by_cases h : k = n
        · simp [h]
        · simp [h, Nat.succ_ne_succ]

theorem mapRows_congr {f g : Row → Cell} (h : ∀ r, f r = g r)
    (rs : List Row) : rs.map f = rs.map g := by
  induction rs with
  | nil => rfl
  | cons r rs ih => simp [h r, ih]

theorem cellSub_eq_some {a b : Cell} {d : ℝ} (h : cellSub a b = some d) :
    ∃ x y, a = some x ∧ b = some y ∧ d = x - y := by
  cases a with
  | none => simp [cellSub] at h
  | some x =>
    cases b with
    | none => simp [cellSub] at h
    | some y =>
      simp only [cellSub, Option.some.injEq] at h
      exact ⟨x, y, rfl, rfl, h.symm⟩

/-! ### Lemmas about `idxmin` and `first_valid_index` -/

theorem idxminFrom_eq_none {cells : List Cell} {i : ℕ}
    (h : idxminFrom i cells = none) :
    ∀ k c, cells.get? k = some c → c = none := by
  induction cells generalizing i with
  | nil => intro k c hk; simp at hk
  | cons c0 cs ih =>
    intro k c hk
    cases c0 with
    | none =>
      cases k with
      | zero =>
        simp only [List.get?, Option.some.injEq] at hk
        exact hk.symm
      | succ k' =>
        have h' : idxminFrom (i + 1) cs = none := h
        exact ih h' k' c hk
    | some v =>
      exfalso
      simp only [idxminFrom] at h
      cases hrec : idxminFrom (i + 1) cs with
      | none => rw [hrec] at h; simp [Option.elim] at h
      | some p =>
        rw [hrec] at h
        obtain ⟨j, w⟩ := p
        by_cases hw : w < v <;> simp [Option.elim, hw] at h

theorem idxminFrom_spec {cells : List Cell} {i wi : ℕ} {wv : ℝ}
    (h : idxminFrom i cells = some (wi, wv)) :
    i ≤ wi ∧ cells.get? (wi - i) = some (some wv) ∧
      (∀ j v, cells.get? j = some (some v) →
        wv ≤ v ∧ (i + j < wi → wv < v)) := by
  induction cells generalizing i wi wv with
  | nil => simp [idxminFrom] at h
  | cons c0 cs ih =>
    cases c0 with
    | none =>
      have h' : idxminFrom (i + 1) cs = some (wi, wv) := h
      obtain ⟨hle, hget, hmin⟩ := ih h'
      refine ⟨by omega, ?_, ?_⟩
      · have hd : wi - i = (wi - (i + 1)) + 1 := by omega
        rw [hd]
        simpa using hget
      · intro j v hj
        cases j with
        | zero => simp at hj
        | succ k =>
          have := hmin k v (by simpa using hj)
          exact ⟨this.1, fun hlt => this.2 (by omega)⟩
    | some v0 =>
      simp only [idxminFrom] at h
      cases hrec : idxminFrom (i + 1) cs with
      | none =>
        rw [hrec] at h
        simp only [Option.elim, Option.some.injEq, Prod.mk.injEq] at h
        obtain ⟨rfl, rfl⟩ := h
        refine ⟨le_rfl, by simp, ?_⟩
        intro j v hj
        cases j with
        | zero =>
          have hv : v0 = v := by simpa using hj
          exact ⟨le_of_eq hv, fun hlt => absurd hlt (by omega)⟩
        | succ k =>
          have := idxminFrom_eq_none hrec k (some v) (by simpa using hj)
          simp at this
      | some p =>
        obtain ⟨j0, w⟩ := p
        rw [hrec] at h
        simp only [Option.elim] at h
        obtain ⟨hle, hget, hmin⟩ := ih hrec
        by_cases hw : w < v0
        · rw [if_pos hw] at h
          simp only [Option.some.injEq, Prod.mk.injEq] at h
          obtain ⟨rfl, rfl⟩ := h
          refine ⟨by omega, ?_, ?_⟩
          · have hd : j0 - i = (j0 - (i + 1)) + 1 := by omega
            rw [hd]
            simpa using hget
          · intro j v hj
            cases j with
            | zero =>
              have hv : v0 = v := by simpa using hj
              subst hv
              exact ⟨le_of_lt hw, fun _ => hw⟩
            | succ k =>
              have := hmin k v (by simpa using hj)
              exact ⟨this.1, fun hlt => this.2 (by omega)⟩
        · rw [if_neg hw] at h
          simp only [Option.some.injEq, Prod.mk.injEq] at h
          obtain ⟨rfl, rfl⟩ := h
          refine ⟨le_rfl, by simp, ?_⟩
          intro j v hj
          cases j with
          | zero =>
            have hv : v0 = v := by simpa using hj
            subst hv
            exact ⟨le_rfl, fun hlt => absurd hlt (by omega)⟩
          | succ k =>
            have := hmin k v (by simpa using hj)
            exact ⟨le_trans (not_lt.mp hw) this.1,
              fun hlt => absurd hlt (by omega)⟩

theorem idxmin_spec {cells : List Cell} {wi : ℕ} {wv : ℝ}
    (h : idxmin cells = some (wi, wv)) :
    cells.get? wi = some (some wv) ∧
      (∀ j v, cells.get? j = some (some v) →
        wv ≤ v ∧ (j < wi → wv < v)) := by
  obtain ⟨_, hget, hmin⟩ := idxminFrom_spec h
  refine ⟨by simpa using hget, ?_⟩
  intro j v hj
  have := hmin j v hj
  exact ⟨this.1, fun hlt => this.2 (by omega)⟩

theorem idxmin_isSome {cells : List Cell} {k : ℕ} {v : ℝ}
    (h : cells.get? k = some (some v)) : ∃ p, idxmin cells = some p := by
  cases hm : idxmin cells with
  | none =>
    have := idxminFrom_eq_none hm k (some v) h
    simp at this
  | some p => exact ⟨p, rfl⟩

theorem firstSomeIdxFrom_eq {cells : List Cell} {wi : ℕ} {c0 : Cell}
    (h1 : ∀ j, j < wi → cells.get? j = some none)
    (h2 : cells.get? wi = some c0) (h3 : c0.isSome) :
    ∀ i, firstSomeIdxFrom i cells = some (i + wi) := by
  induction cells generalizing wi with
  | nil => simp at h2
  | cons c cs ih =>
    intro i
    cases wi with
    | zero =>
      simp only [List.get?, Option.some.injEq] at h2
      subst h2
      simp [firstSomeIdxFrom, h3]
    | succ k =>
      have hc : c = none := by
        have := h1 0 (by omega)
        simpa using this
      subst hc
      simp only [firstSomeIdxFrom, Option.isSome_none, Bool.false_eq_true,
        if_false]
      have := @ih k (fun j hj => by simpa using h1 (j + 1) (by omega))
        (by simpa using h2) (i + 1)
      rw [this]
      congr 1
      omega

/-! ### Lemmas about the derived-column stage -/

theorem dfStage4_cols (df : DataFrame) (d1 d3 : ℕ) (ca cb : String) :
    (dfStage4 df d1 d3 ca cb).cols =
      ["sag", "K", "LK", "C1", "C2", "required-distance"].foldl
        addColName df.cols := by
  unfold dfStage4
  split_ifs <;> rfl

theorem dfStage4_length (df : DataFrame) (d1 d3 : ℕ) (ca cb : String) :
    (dfStage4 df d1 d3 ca cb).rows.length = df.rows.length := by
  unfold dfStage4
  split_ifs <;> simp [setColF]

theorem dfStage4_get? (df : DataFrame) (d1 d3 : ℕ) (ca cb : String)
    {i : ℕ} {r : Row} (h : df.rows.get? i = some r) :
    ∃ r4, (dfStage4 df d1 d3 ca cb).rows.get? i = some r4 ∧
      r4 "sag" = cellMax (r ca) (r cb) ∧
      r4 "K" = cellK (r "Beta Angle (°)") ∧
      r4 "LK" = some 2.0 ∧
      r4 "C1" = some (c1val d1 d3) ∧
      r4 "C2" = some (c2val d1 d3) ∧
      r4 "required-distance" = modelRequired d1 d3 ca cb r ∧
      ∀ c, c ≠ "sag" → c ≠ "K" → c ≠ "LK" → c ≠ "C1" → c ≠ "C2" →
        c ≠ "required-distance" → r4 c = r c := by
  unfold dfStage4
  by_cases hEW : whichCircuit d1 = EARTH_WIRE ∨ whichCircuit d3 = EARTH_WIRE
  · simp only [if_pos hEW, setColF_rows, List.map_map, List.get?_map, h,
      Option.map_some]
    refine ⟨_, rfl, ?_, ?_, ?_, ?_, ?_, ?_, ?_⟩
    · simp [Function.comp, updR]
    · simp [Function.comp, updR, cellK]
    · simp [Function.comp, updR]
    · simp [Function.comp, updR, c1val, hEW]
    · simp [Function.comp, updR, c2val, hEW]
    · simp [Function.comp, updR, modelRequired, hEW]
    · intro c hc1 hc2 hc3 hc4 hc5 hc6
      simp [Function.comp, updR, hc1, hc2, hc3, hc4, hc5, hc6]
  · obtain ⟨hEW1, hEW2⟩ := not_or.mp hEW
    by_cases hS : whichCircuit d1 = whichCircuit d3
    · simp only [if_neg hEW, if_pos hS, setColF_rows, List.map_map,
        List.get?_map, h, Option.map_some]
      refine ⟨_, rfl, ?_, ?_, ?_, ?_, ?_, ?_, ?_⟩
      · simp [Function.comp, updR]
      · simp [Function.comp, updR, cellK]
      · simp [Function.comp, updR]
      · simp [Function.comp, updR, c1val, hEW1, hEW2, hS]
      · simp [Function.comp, updR, c2val, hEW1, hEW2, hS]
      · simp [Function.comp, updR, modelRequired, c1val, c2val, cellK,
          hEW1, hEW2, hS]
      · intro c hc1 hc2 hc3 hc4 hc5 hc6
        simp [Function.comp, updR, hc1, hc2, hc3, hc4, hc5, hc6]
    · simp only [if_neg hEW, if_neg hS, setColF_rows, List.map_map,
        List.get?_map, h, Option.map_some]
      refine ⟨_, rfl, ?_, ?_, ?_, ?_, ?_, ?_, ?_⟩
      · simp [Function.comp, updR]
      · simp [Function.comp, updR, cellK]
      · simp [Function.comp, updR]
      · simp [Function.comp, updR, c1val, hEW1, hEW2, hS]
      · simp [Function.comp, updR, c2val, hEW1, hEW2, hS]
      · simp [Function.comp, updR, modelRequired, c1val, c2val, cellK,
          hEW1, hEW2, hS]
      · intro c hc1 hc2 hc3 hc4 hc5 hc6
        simp [Function.comp, updR, hc1, hc2, hc3, hc4, hc5, hc6]

/-! ### The master lemma for a successful `process_sheet` run -/

theorem process_sheet_master
    (df : DataFrame) (d1 d2 d3 d4 : ℕ) (ca cb : String) {wi : ℕ} {wv : ℝ}
    (h1 : pickDistanceCol df d1 d2 = .ok ca)
    (h2 : pickDistanceCol df d3 d4 = .ok cb)
    (h3 : "Beta Angle (°)" ∈ df.cols)
    (h4 : "Distance Between Powerlines" ∈ df.cols)
    (h5 : "Station" ∈ df.cols)
    (hidx : idxmin (df.rows.map (modelDiff d1 d3 ca cb)) = some (wi, wv)) :
    ∃ df' s, process_sheet df d1 d2 d3 d4 = .ok (df', s) ∧
      df'.cols = augNames.foldl addColName df.cols ∧
      df'.rows.length = df.rows.length ∧
      (∀ i r, df.rows.get? i = some r →
        ∃ r', df'.rows.get? i = some r' ∧
          r' "sag" = cellMax (r ca) (r cb) ∧
          r' "K" = cellK (r "Beta Angle (°)") ∧
          r' "LK" = some 2.0 ∧
          r' "C1" = some (c1val d1 d3) ∧
          r' "C2" = some (c2val d1 d3) ∧
          r' "required-distance" = modelRequired d1 d3 ca cb r ∧
          r' "diff" = modelDiff d1 d3 ca cb r ∧
          r' "worst-case" = (if i = wi then some wv else none) ∧
          (∀ c, c ≠ "sag" → c ≠ "K" → c ≠ "LK" → c ≠ "C1" → c ≠ "C2" →
            c ≠ "required-distance" → c ≠ "diff" → c ≠ "worst-case" →
            r' c = r c)) ∧
      (∃ rw, df.rows.get? wi = some rw ∧
        s.row_num = wi + 2 ∧
        s.station = rw "Station" ∧
        s.sag = cellMax (rw ca) (rw cb) ∧
        s.lk = some 2.0 ∧
        s.beta = rw "Beta Angle (°)" ∧
        s.k_factor = cellK (rw "Beta Angle (°)") ∧
        s.c1 = some (c1val d1 d3) ∧
        s.c2 = some (c2val d1 d3) ∧
        s.req = modelRequired d1 d3 ca cb rw ∧
        s.cur = rw "Distance Between Powerlines" ∧
        s.ok_flag = (if cellGtB (modelRequired d1 d3 ca cb rw)
            (rw "Distance Between Powerlines") then "not ok" else "ok")) := by
  classical
  -- the input row selected by idxmin, and the bound wi < length
  obtain ⟨hwget, hmin⟩ := idxmin_spec hidx
  rw [List.get?_map] at hwget
  cases hrw : df.rows.get? wi with
  | none => rw [hrw] at hwget; simp at hwget
  | some rw0 =>
  rw [hrw] at hwget
  simp only [Option.map_some', Option.some.injEq] at hwget
  have hwilt : wi < df.rows.length := by
    obtain ⟨hlt, _⟩ := List.get?_eq_some.mp hrw
    exact hlt
  -- the row of dfStage4 at an index, and its diff cell
  have hstage := fun {i : ℕ} {r : Row} (h : df.rows.get? i = some r) =>
    dfStage4_get? df d1 d3 ca cb h
  -- the diff column produced by the pipeline is modelDiff of the input row
  have hdiffmap :
      ((setColF (dfStage4 df d1 d3 ca cb) "diff"
          (fun r => cellSub (r "Distance Between Powerlines")
            (r "required-distance"))).rows.map (fun r => r "diff")) =
        df.rows.map (modelDiff d1 d3 ca cb) := by
    apply List.ext
    intro n
    rw [List.get?_map, List.get?_map, setColF_rows, List.get?_map]
    cases hn : df.rows.get? n with
    | none =>
      have hlen : (dfStage4 df d1 d3 ca cb).rows.length ≤ n := by
        rw [dfStage4_length]
        exact List.get?_eq_none.mp hn
      rw [List.get?_eq_none.mpr hlen]
      simp
    | some rn =>
      obtain ⟨r4, hr4, hsag, hK, hLK, hC1, hC2, hreq, hoth⟩ := hstage hn
      rw [hr4]
      simp only [Option.map_some', Option.some.injEq]
      rw [updR_self]
      rw [hoth "Distance Between Powerlines" (by decide) (by decide)
        (by decide) (by decide) (by decide) (by decide), hreq]
      rfl
  -- membership of the fixed input columns in the extended headers
  have hb1 : "Beta Angle (°)" ∈ addColName df.cols "sag" :=
    (mem_addColName df.cols "sag").mpr (Or.inl h3)
  have hd4 : "Distance Between Powerlines" ∈ (dfStage4 df d1 d3 ca cb).cols := by
    rw [dfStage4_cols]
    simp only [List.foldl, mem_addColName]
    exact Or.inl (Or.inl (Or.inl (Or.inl (Or.inl (Or.inl h4)))))
  -- lengths through the later stages
  have hlen5 :
      (setColF (dfStage4 df d1 d3 ca cb) "diff"
        (fun r => cellSub (r "Distance Between Powerlines")
          (r "required-distance"))).rows.length = df.rows.length := by
    rw [setColF_rows, List.length_map, dfStage4_length]
  -- the row of the post-diff stage at an index
  have hrow5 : ∀ {i : ℕ} {r : Row}, df.rows.get? i = some r →
      ∃ r5, (setColF (dfStage4 df d1 d3 ca cb) "diff"
          (fun r => cellSub (r "Distance Between Powerlines")
            (r "required-distance"))).rows.get? i = some r5 ∧
        r5 "sag" = cellMax (r ca) (r cb) ∧
        r5 "K" = cellK (r "Beta Angle (°)") ∧
        r5 "LK" = some 2.0 ∧
        r5 "C1" = some (c1val d1 d3) ∧
        r5 "C2" = some (c2val d1 d3) ∧
        r5 "required-distance" = modelRequired d1 d3 ca cb r ∧
        r5 "diff" = modelDiff d1 d3 ca cb r ∧
        (∀ c, c ≠ "sag" → c ≠ "K" → c ≠ "LK" → c ≠ "C1" → c ≠ "C2" →
          c ≠ "required-distance" → c ≠ "diff" → r5 c = r c) := by
    intro i r h
    obtain ⟨r4, hr4, hsag, hK, hLK, hC1, hC2, hreq, hoth⟩ := hstage h
    refine ⟨updR r4 "diff"
      (cellSub (r4 "Distance Between Powerlines")
        (r4 "required-distance")), ?_, ?_, ?_, ?_, ?_, ?_, ?_, ?_, ?_⟩
    · rw [setColF_rows, List.get?_map, hr4]
      rfl
    · rw [updR_ne _ _ _ (by decide), hsag]
    · rw [updR_ne _ _ _ (by decide), hK]
    · rw [updR_ne _ _ _ (by decide), hLK]
    · rw [updR_ne _ _ _ (by decide), hC1]
    · rw [updR_ne _ _ _ (by decide), hC2]
    · rw [updR_ne _ _ _ (by decide), hreq]
    · rw [updR_self,
        hoth "Distance Between Powerlines" (by decide) (by decide)
          (by decide) (by decide) (by decide) (by decide), hreq]
      rfl
    · intro c hc1 hc2 hc3 hc4 hc5 hc6 hc7
      rw [updR_ne _ _ _ hc7]
      exact hoth c hc1 hc2 hc3 hc4 hc5 hc6
  -- the final sheet's row at each index, with all computed columns
  have hwc : ∀ {j : ℕ} {r : Row}, df.rows.get? j = some r →
      ∃ r7, (setRowAt
          (setColF (setColF (dfStage4 df d1 d3 ca cb) "diff"
            (fun r => cellSub (r "Distance Between Powerlines")
              (r "required-distance"))) "worst-case" (fun _ => none)).rows
          wi "worst-case" (some wv)).get? j = some r7 ∧
        r7 "sag" = cellMax (r ca) (r cb) ∧
        r7 "K" = cellK (r "Beta Angle (°)") ∧
        r7 "LK" = some 2.0 ∧
        r7 "C1" = some (c1val d1 d3) ∧
        r7 "C2" = some (c2val d1 d3) ∧
        r7 "required-distance" = modelRequired d1 d3 ca cb r ∧
        r7 "diff" = modelDiff d1 d3 ca cb r ∧
        r7 "worst-case" = (if j = wi then some wv else none) ∧
        (∀ c, c ≠ "sag" → c ≠ "K" → c ≠ "LK" → c ≠ "C1" → c ≠ "C2" →
          c ≠ "required-distance" → c ≠ "diff" → c ≠ "worst-case" →
          r7 c = r c) := by
    intro j r h
    obtain ⟨r5, hr5, hsag, hK, hLK, hC1, hC2, hreq, hdiff, hoth⟩ := hrow5 h
    have hr6 : (setColF (setColF (dfStage4 df d1 d3 ca cb) "diff"
        (fun r => cellSub (r "Distance Between Powerlines")
          (r "required-distance"))) "worst-case" (fun _ => none)).rows.get? j =
        some (updR r5 "worst-case" none) := by
      rw [setColF_rows, List.get?_map, hr5]
      rfl
    rw [setRowAt_get?]
    by_cases hj : j = wi
    · refine ⟨updR (updR r5 "worst-case" none) "worst-case" (some wv),
        ?_, ?_, ?_, ?_, ?_, ?_, ?_, ?_, ?_, ?_⟩
      · rw [if_pos hj, hr6]
        rfl
      · rw [updR_ne _ _ _ (by decide), updR_ne _ _ _ (by decide), hsag]
      · rw [updR_ne _ _ _ (by decide), updR_ne _ _ _ (by decide), hK]
      · rw [updR_ne _ _ _ (by decide), updR_ne _ _ _ (by decide), hLK]
      · rw [updR_ne _ _ _ (by decide), updR_ne _ _ _ (by decide), hC1]
      · rw [updR_ne _ _ _ (by decide), updR_ne _ _ _ (by decide), hC2]
      · rw [updR_ne _ _ _ (by decide), updR_ne _ _ _ (by decide), hreq]
      · rw [updR_ne _ _ _ (by decide), updR_ne _ _ _ (by decide), hdiff]
      · rw [updR_self, if_pos hj]
      · intro c hc1 hc2 hc3 hc4 hc5 hc6 hc7 hc8
        rw [updR_ne _ _ _ hc8, updR_ne _ _ _ hc8]
        exact hoth c hc1 hc2 hc3 hc4 hc5 hc6 hc7
    · refine ⟨updR r5 "worst-case" none,
        ?_, ?_, ?_, ?_, ?_, ?_, ?_, ?_, ?_, ?_⟩
      · rw [if_neg hj, hr6]
      · rw [updR_ne _ _ _ (by decide), hsag]
      · rw [updR_ne _ _ _ (by decide), hK]
      · rw [updR_ne _ _ _ (by decide), hLK]
      · rw [updR_ne _ _ _ (by decide), hC1]
      · rw [updR_ne _ _ _ (by decide), hC2]
      · rw [updR_ne _ _ _ (by decide), hreq]
      · rw [updR_ne _ _ _ (by decide), hdiff]
      · rw [updR_self, if_neg hj]
      · intro c hc1 hc2 hc3 hc4 hc5 hc6 hc7 hc8
        rw [updR_ne _ _ _ hc8]
        exact hoth c hc1 hc2 hc3 hc4 hc5 hc6 hc7
  -- first_valid_index of the worst-case column is wi
  have hfsi : firstSomeIdx ((setRowAt
      (setColF (setColF (dfStage4 df d1 d3 ca cb) "diff"
        (fun r => cellSub (r "Distance Between Powerlines")
          (r "required-distance"))) "worst-case" (fun _ => none)).rows
      wi "worst-case" (some wv)).map (fun r => r "worst-case")) = some wi := by
    have hcell : ∀ {j : ℕ} {r : Row}, df.rows.get? j = some r →
        ((setRowAt (setColF (setColF (dfStage4 df d1 d3 ca cb) "diff"
          (fun r => cellSub (r "Distance Between Powerlines")
            (r "required-distance"))) "worst-case" (fun _ => none)).rows
          wi "worst-case" (some wv)).map (fun r => r "worst-case")).get? j =
          some (if j = wi then some wv else none) := by
      intro j r h
      obtain ⟨r7, hr7, -, -, -, -, -, -, -, hwcv, -⟩ := hwc h
      rw [List.get?_map, hr7, Option.map_some', hwcv]
    have hprev : ∀ j, j < wi →
        ((setRowAt (setColF (setColF (dfStage4 df d1 d3 ca cb) "diff"
          (fun r => cellSub (r "Distance Between Powerlines")
            (r "required-distance"))) "worst-case" (fun _ => none)).rows
          wi "worst-case" (some wv)).map (fun r => r "worst-case")).get? j =
          some none := by
      intro j hj
      have hne : ¬ (j = wi) := Nat.ne_of_lt hj
      have hjlt : j < df.rows.length := lt_trans hj hwilt
      have hrj := List.get?_eq_get hjlt
      rw [hcell hrj, if_neg hne]
    have hat : ((setRowAt (setColF (setColF (dfStage4 df d1 d3 ca cb) "diff"
        (fun r => cellSub (r "Distance Between Powerlines")
          (r "required-distance"))) "worst-case" (fun _ => none)).rows
        wi "worst-case" (some wv)).map (fun r => r "worst-case")).get? wi =
        some (some wv) := by
      rw [hcell hrw, if_pos rfl]
    have h0 := firstSomeIdxFrom_eq hprev hat (by simp) 0
    simpa [firstSomeIdx] using h0
  -- "Station" is present in the final header
  have hst : "Station" ∈ (setColF (setColF (dfStage4 df d1 d3 ca cb) "diff"
      (fun r => cellSub (r "Distance Between Powerlines")
        (r "required-distance"))) "worst-case" (fun _ => none)).cols := by
    rw [setColF_cols, mem_addColName, setColF_cols, mem_addColName,
      dfStage4_cols]
    refine Or.inl (Or.inl ?_)
    simp only [List.foldl, mem_addColName]
    exact Or.inl (Or.inl (Or.inl (Or.inl (Or.inl (Or.inl h5)))))
  -- now unfold process_sheet and reduce all stages
  simp only [process_sheet, h1, h2, hb1, if_true, hd4, hdiffmap, hidx,
    hfsi, hst]
  -- the selected row of the final sheet
  obtain ⟨r7w, hr7w, hsagw, hKw, hLKw, hC1w, hC2w, hreqw, hdiffw, hwcw,
    hothw⟩ := hwc hrw
  have hcols7 : (setColF (setColF (dfStage4 df d1 d3 ca cb) "diff"
      (fun r => cellSub (r "Distance Between Powerlines")
        (r "required-distance"))) "worst-case" (fun _ => none)).cols =
      augNames.foldl addColName df.cols := by
    rw [setColF_cols, setColF_cols, dfStage4_cols]
    simp only [augNames, List.foldl_cons, List.foldl_nil]
  refine ⟨_, _, rfl, hcols7, ?_, ?_, ?_⟩
  · rw [setRowAt_length, setColF_rows, List.length_map, setColF_rows,
      List.length_map, dfStage4_length]
  · intro i r hir
    exact hwc hir
  · refine ⟨rw0, rfl, rfl, ?_⟩
    have hgetD : (setRowAt
        (setColF (setColF (dfStage4 df d1 d3 ca cb) "diff"
          (fun r => cellSub (r "Distance Between Powerlines")
            (r "required-distance"))) "worst-case" (fun _ => none)).rows
        wi "worst-case" (some wv)).getD wi (fun _ => none) = r7w := by
      show ((setRowAt (setColF (setColF (dfStage4 df d1 d3 ca cb) "diff"
          (fun r => cellSub (r "Distance Between Powerlines")
            (r "required-distance"))) "worst-case" (fun _ => none)).rows
          wi "worst-case" (some wv)).get? wi).getD (fun _ => none) = r7w
      rw [hr7w]
      rfl
    rw [hgetD]
    have hstw : r7w "Station" = rw0 "Station" :=
      hothw "Station" (by decide) (by decide) (by decide) (by decide)
        (by decide) (by decide) (by decide) (by decide)
    have hcurw : r7w "Distance Between Powerlines" =
        rw0 "Distance Between Powerlines" :=
      hothw "Distance Between Powerlines" (by decide) (by decide)
        (by decide) (by decide) (by decide) (by decide) (by decide)
        (by decide)
    have hbw : r7w "Beta Angle (°)" = rw0 "Beta Angle (°)" :=
      hothw "Beta Angle (°)" (by decide) (by decide) (by decide)
        (by decide) (by decide) (by decide) (by decide) (by decide)
    exact ⟨hstw, hsagw, hLKw, hbw, hKw, hC1w, hC2w, hreqw, hcurw,
      by rw [hreqw, hcurw]⟩

/-! ### Claim C1 -/

/-- C1: for every sheet row whose endpoint circuits `cir1 = classify(d1)`
and `cir3 = classify(d3)` are both real circuits (neither is
`EARTH_WIRE`), `process_sheet` computes
`required-distance = K * sqrt(sag + LK) + C1 + C2`, where `sag` is the
row-wise maximum of the two resolved distance/sag columns,
`K = -(0.1/90) * beta_angle + 0.75`, `LK = 2.0`, and
`(C1, C2) = (1.93, 0)` when `cir1 = cir3` and `(0, 2.29)` otherwise. -/
theorem C1_required_distance_formula
    (df : DataFrame) (d1 d2 d3 d4 : ℕ) (ca cb : String)
    (h1 : pickDistanceCol df d1 d2 = .ok ca)
    (h2 : pickDistanceCol df d3 d4 = .ok cb)
    (h3 : "Beta Angle (°)" ∈ df.cols)
    (h4 : "Distance Between Powerlines" ∈ df.cols)
    (h5 : "Station" ∈ df.cols)
    (h6 : ∃ p, idxmin (df.rows.map (modelDiff d1 d3 ca cb)) = some p)
    (hc1 : whichCircuit d1 ≠ EARTH_WIRE)
    (hc3 : whichCircuit d3 ≠ EARTH_WIRE) :
    ∃ df' s, process_sheet df d1 d2 d3 d4 = .ok (df', s) ∧
      ∀ i r, df.rows.get? i = some r →
        ∃ r', df'.rows.get? i = some r' ∧
          r' "LK" = some 2.0 ∧
          r' "C1" =
            some (if whichCircuit d1 = whichCircuit d3 then 1.93 else 0) ∧
          r' "C2" =
            some (if whichCircuit d1 = whichCircuit d3 then 0 else 2.29) ∧
          ∀ β x y, r "Beta Angle (°)" = some β → r ca = some x →
            r cb = some y →
            r' "sag" = some (max x y) ∧
            r' "K" = some (-(0.1 / 90) * β + 0.75) ∧
            r' "required-distance" =
              some ((-(0.1 / 90) * β + 0.75) * Real.sqrt (max x y + 2.0) +
                (if whichCircuit d1 = whichCircuit d3 then 1.93 else 0) +
                (if whichCircuit d1 = whichCircuit d3 then 0 else 2.29)) := by
  obtain ⟨⟨wi, wv⟩, hidx⟩ := h6
  obtain ⟨df', s, hok, -, -, hrows, -⟩ :=
    process_sheet_master df d1 d2 d3 d4 ca cb h1 h2 h3 h4 h5 hidx
  have hEW : ¬ (whichCircuit d1 = EARTH_WIRE ∨ whichCircuit d3 = EARTH_WIRE) :=
    not_or.mpr ⟨hc1, hc3⟩
  refine ⟨df', s, hok, ?_⟩
  intro i r hir
  obtain ⟨r', hr', hsag, hK, hLK, hC1, hC2, hreq, -, -, -⟩ := hrows i r hir
  refine ⟨r', hr', hLK, ?_, ?_, ?_⟩
  · rw [hC1]; simp [c1val, hEW]
  · rw [hC2]; simp [c2val, hEW]
  · intro β x y hβ hx hy
    refine ⟨?_, ?_, ?_⟩
    · rw [hsag, hx, hy]; simp [cellMax]
    · rw [hK, hβ]; simp [cellK]
    · rw [hreq]
      simp only [modelRequired, if_neg hEW, hβ, hx, hy, cellK, cellMax,
        c1val, c2val, hEW, if_false]
      simp [cellAdd, cellMul, cellSqrt, Option.map_some']


/-- Witness for C1: the hypotheses are satisfiable at a concrete sheet. -/
theorem C1_required_distance_formula_witness :
    ∃ df' s, process_sheet wdfC1 41 42 43 44 = .ok (df', s) := by
  obtain ⟨df', s, hok, -⟩ :=
    C1_required_distance_formula wdfC1 41 42 43 44
      "Straight Distance of 41-42" "Straight Distance of 43-44"
      rfl rfl (by decide) (by decide) (by decide) ⟨_, rfl⟩
      (by decide) (by decide)
  exact ⟨df', s, hok⟩

/-! ### Claim C2 -/

/-- C2: for every sheet whose parsed identifiers satisfy
`classify(d1) = EARTH_WIRE` or `classify(d3) = EARTH_WIRE`,
`process_sheet` sets `C1 = 1.93`, `C2 = 0` and
`required-distance = 1.93` for every row, independent of the sag, K, LK
and beta-angle inputs of that row (the sheet is arbitrary). -/
theorem C2_earth_wire_flat_threshold
    (df : DataFrame) (d1 d2 d3 d4 : ℕ) (ca cb : String)
    (h1 : pickDistanceCol df d1 d2 = .ok ca)
    (h2 : pickDistanceCol df d3 d4 = .ok cb)
    (h3 : "Beta Angle (°)" ∈ df.cols)
    (h4 : "Distance Between Powerlines" ∈ df.cols)
    (h5 : "Station" ∈ df.cols)
    (h6 : ∃ p, idxmin (df.rows.map (modelDiff d1 d3 ca cb)) = some p)
    (hEW : whichCircuit d1 = EARTH_WIRE ∨ whichCircuit d3 = EARTH_WIRE) :
    ∃ df' s, process_sheet df d1 d2 d3 d4 = .ok (df', s) ∧
      ∀ i r, df.rows.get? i = some r →
        ∃ r', df'.rows.get? i = some r' ∧
          r' "C1" = some 1.93 ∧ r' "C2" = some 0 ∧
          r' "required-distance" = some 1.93 := by
  obtain ⟨⟨wi, wv⟩, hidx⟩ := h6
  obtain ⟨df', s, hok, -, -, hrows, -⟩ :=
    process_sheet_master df d1 d2 d3 d4 ca cb h1 h2 h3 h4 h5 hidx
  refine ⟨df', s, hok, ?_⟩
  intro i r hir
  obtain ⟨r', hr', -, -, -, hC1, hC2, hreq, -, -, -⟩ := hrows i r hir
  refine ⟨r', hr', ?_, ?_, ?_⟩
  · rw [hC1]; simp [c1val, hEW]
  · rw [hC2]; simp [c2val, hEW]
  · rw [hreq]; simp [modelRequired, hEW]


/-- Witness for C2: the hypotheses are satisfiable at a concrete sheet. -/
theorem C2_earth_wire_flat_threshold_witness :
    ∃ df' s, process_sheet wdfC2 59 39 41 42 = .ok (df', s) := by
  obtain ⟨df', s, hok, -⟩ :=
    C2_earth_wire_flat_threshold wdfC2 59 39 41 42
      "Straight Distance of 59-39" "Straight Distance of 41-42"
      rfl rfl (by decide) (by decide) (by decide) ⟨_, rfl⟩
      (Or.inl (by decide))
  exact ⟨df', s, hok⟩

/-! ### Claim C3 -/

/-- C3: for every non-empty processed sheet, exactly one row — the row
with minimum `diff = measured - required`, the first such row among ties
— receives a non-empty worst-case value equal to its diff; the
worst-case field of every other row is left empty, and this single row
supplies the sheet's summary record. -/
theorem C3_single_worst_case_row
    (df : DataFrame) (d1 d2 d3 d4 : ℕ) (ca cb : String)
    (h1 : pickDistanceCol df d1 d2 = .ok ca)
    (h2 : pickDistanceCol df d3 d4 = .ok cb)
    (h3 : "Beta Angle (°)" ∈ df.cols)
    (h4 : "Distance Between Powerlines" ∈ df.cols)
    (h5 : "Station" ∈ df.cols)
    (h6 : ∃ p, idxmin (df.rows.map (modelDiff d1 d3 ca cb)) = some p) :
    ∃ df' s wi wv, process_sheet df d1 d2 d3 d4 = .ok (df', s) ∧
      wi < df.rows.length ∧
      (∃ rw', df'.rows.get? wi = some rw' ∧
        rw' "worst-case" = some wv ∧ rw' "diff" = some wv) ∧
      (∀ j rj, df'.rows.get? j = some rj → j ≠ wi →
        rj "worst-case" = none) ∧
      (∀ j rj v, df.rows.get? j = some rj →
        modelDiff d1 d3 ca cb rj = some v → wv ≤ v ∧ (j < wi → wv < v)) ∧
      s.row_num = wi + 2 ∧
      (∃ rw, df.rows.get? wi = some rw ∧
        modelDiff d1 d3 ca cb rw = some wv ∧
        s.station = rw "Station" ∧
        s.req = modelRequired d1 d3 ca cb rw ∧
        s.cur = rw "Distance Between Powerlines") := by
  obtain ⟨⟨wi, wv⟩, hidx⟩ := h6
  obtain ⟨hwget, hmin⟩ := idxmin_spec hidx
  obtain ⟨df', s, hok, -, hlen, hrows, hsum⟩ :=
    process_sheet_master df d1 d2 d3 d4 ca cb h1 h2 h3 h4 h5 hidx
  obtain ⟨rw, hrw, hrownum, hstation, -, -, -, -, -, -, hreqs, hcurs, -⟩ := hsum
  have hwilt : wi < df.rows.length := by
    obtain ⟨hlt, -⟩ := List.get?_eq_some.mp hrw
    exact hlt
  have hdiffw : modelDiff d1 d3 ca cb rw = some wv := by
    rw [List.get?_map, hrw, Option.map_some', Option.some.injEq] at hwget
    exact hwget
  refine ⟨df', s, wi, wv, hok, hwilt, ?_, ?_, ?_, hrownum,
    rw, hrw, hdiffw, hstation, hreqs, hcurs⟩
  · obtain ⟨r', hr', -, -, -, -, -, -, hdiff, hwcl, -⟩ := hrows wi rw hrw
    exact ⟨r', hr', by rw [hwcl, if_pos rfl], by rw [hdiff, hdiffw]⟩
  · intro j rj hj hne
    have hjlt : j < df.rows.length := by
      obtain ⟨hlt, -⟩ := List.get?_eq_some.mp hj
      rw [hlen] at hlt
      exact hlt
    have hjr := List.get?_eq_get hjlt
    obtain ⟨r', hr', -, -, -, -, -, -, -, hwcl, -⟩ :=
      hrows j (df.rows.get ⟨j, hjlt⟩) hjr
    have hrjr : rj = r' := by
      rw [hj] at hr'
      exact Option.some.inj hr'
    rw [hrjr, hwcl, if_neg hne]
  · intro j rj v hjr hdv
    refine hmin j v ?_
    rw [List.get?_map, hjr, Option.map_some', hdv]


/-- Witness for C3: the hypotheses are satisfiable at a concrete sheet. -/
theorem C3_single_worst_case_row_witness :
    ∃ (df' : DataFrame) (s : Summary) (wi : ℕ),
      process_sheet wdfC3 59 39 41 42 = .ok (df', s) ∧
      wi < wdfC3.rows.length := by
  obtain ⟨df', s, wi, wv, hok, hlt, -⟩ :=
    C3_single_worst_case_row wdfC3 59 39 41 42
      "Straight Distance of 59-39" "Straight Distance of 41-42"
      rfl rfl (by decide) (by decide) (by decide) ⟨_, rfl⟩
  exact ⟨df', s, wi, hok, hlt⟩

/-! ### Claim C5 -/

/-- C5: for every processed sheet, the summary's pass/fail flag,
computed on the selected worst-case row only, is `"ok"` when
`required_distance ≤ measured_distance` on that row and `"not ok"`
otherwise. -/
theorem C5_pass_fail_flag
    (df : DataFrame) (d1 d2 d3 d4 : ℕ) (ca cb : String)
    (h1 : pickDistanceCol df d1 d2 = .ok ca)
    (h2 : pickDistanceCol df d3 d4 = .ok cb)
    (h3 : "Beta Angle (°)" ∈ df.cols)
    (h4 : "Distance Between Powerlines" ∈ df.cols)
    (h5 : "Station" ∈ df.cols)
    (h6 : ∃ p, idxmin (df.rows.map (modelDiff d1 d3 ca cb)) = some p) :
    ∃ df' s wi rw req cur,
      process_sheet df d1 d2 d3 d4 = .ok (df', s) ∧
      df.rows.get? wi = some rw ∧ s.row_num = wi + 2 ∧
      modelRequired d1 d3 ca cb rw = some req ∧
      rw "Distance Between Powerlines" = some cur ∧
      s.req = some req ∧ s.cur = some cur ∧
      s.ok_flag = (if req ≤ cur then "ok" else "not ok") := by
  obtain ⟨⟨wi, wv⟩, hidx⟩ := h6
  obtain ⟨hwget, -⟩ := idxmin_spec hidx
  obtain ⟨df', s, hok, -, -, -, hsum⟩ :=
    process_sheet_master df d1 d2 d3 d4 ca cb h1 h2 h3 h4 h5 hidx
  obtain ⟨rw, hrw, hrownum, -, -, -, -, -, -, -, hreqs, hcurs, hflag⟩ := hsum
  have hdiffw : modelDiff d1 d3 ca cb rw = some wv := by
    rw [List.get?_map, hrw, Option.map_some', Option.some.injEq] at hwget
    exact hwget
  obtain ⟨cur, req, hcur, hreq, -⟩ := cellSub_eq_some hdiffw
  refine ⟨df', s, wi, rw, req, cur, hok, hrw, hrownum, hreq, hcur,
    by rw [hreqs, hreq], by rw [hcurs, hcur], ?_⟩
  rw [hflag, hreq, hcur]
  by_cases hle : req ≤ cur
  · rw [if_pos hle]
    have hgt : cellGtB (some req) (some cur) = false := by
      simp [cellGtB, not_lt.mpr hle]
    rw [hgt]
    simp
  · rw [if_neg hle]
    have hgt : cellGtB (some req) (some cur) = true := by
      simp [cellGtB, not_le.mp hle]
    rw [hgt]
    simp


/-- Witness for C5: the hypotheses are satisfiable at a concrete sheet. -/
theorem C5_pass_fail_flag_witness :
    ∃ df' s wi rw req cur,
      process_sheet wdfC5 59 39 41 42 = .ok (df', s) ∧
      wdfC5.rows.get? wi = some rw ∧
      modelRequired 59 41 "Straight Distance of 59-39"
        "Straight Distance of 41-42" rw = some req ∧
      rw "Distance Between Powerlines" = some cur := by
  obtain ⟨df', s, wi, rw, req, cur, hok, hrw, -, hreq, hcur, -⟩ :=
    C5_pass_fail_flag wdfC5 59 39 41 42
      "Straight Distance of 59-39" "Straight Distance of 41-42"
      rfl rfl (by decide) (by decide) (by decide) ⟨_, rfl⟩
  exact ⟨df', s, wi, rw, req, cur, hok, hrw, hreq, hcur⟩


/-! ### Cell-arithmetic evaluation lemmas -/

theorem cellAdd_some_some (x y : ℝ) :
    cellAdd (some x) (some y) = some (x + y) := rfl

theorem cellAdd_none_left (b : Cell) : cellAdd none b = none := by
  cases b <;> rfl

theorem cellAdd_none_right (a : Cell) : cellAdd a none = none := by
  cases a <;> rfl

theorem cellSub_some_some (x y : ℝ) :
    cellSub (some x) (some y) = some (x - y) := rfl

theorem cellSub_none_left (b : Cell) : cellSub none b = none := by
  cases b <;> rfl

theorem cellSub_none_right (a : Cell) : cellSub a none = none := by
  cases a <;> rfl

theorem cellMul_some_some (x y : ℝ) :
    cellMul (some x) (some y) = some (x * y) := rfl

theorem cellMul_none_left (b : Cell) : cellMul none b = none := by
  cases b <;> rfl

theorem cellMul_none_right (a : Cell) : cellMul a none = none := by
  cases a <;> rfl

theorem cellMax_none_none : cellMax none none = none := rfl

theorem cellMax_none_some (y : ℝ) : cellMax none (some y) = some y := rfl

theorem cellMax_some_none (x : ℝ) : cellMax (some x) none = some x := rfl

theorem cellMax_some_some (x y : ℝ) :
    cellMax (some x) (some y) = some (max x y) := rfl

theorem cellSqrt_none : cellSqrt none = none := rfl

theorem cellSqrt_some (x : ℝ) :
    cellSqrt (some x) = some (Real.sqrt x) := rfl

theorem cellK_none : cellK none = none := rfl

theorem cellK_some (x : ℝ) :
    cellK (some x) = some (-(0.1 / 90) * x + 0.75) := rfl

/-! ### Claim C7 -/

/-- C7 counterexample: in the sheet `cdfC7` (endpoints `41-42` and
`44-45`, two different real circuits) row 1 has a missing value in the
formula input column `Straight Distance of 41-42`, yet `process_sheet`
computes a non-missing required-distance and diff for that row: the
row-wise maximum used for `sag` skips missing cells, so the sentinel
does not propagate — refuting the claim as stated. -/
theorem C7_counterexample :
    (cdfC7.rows.getD 1 (fun _ => none)) "Straight Distance of 41-42" =
      none ∧
    (reqCellAt (process_sheet cdfC7 41 42 44 45) 1).isSome = true ∧
    (diffCellAt (process_sheet cdfC7 41 42 44 45) 1).isSome = true :=
  ⟨rfl, rfl, rfl⟩

/-- C7 (amended): on a sheet whose endpoints are both real circuits, a
missing (or coerced non-numeric) formula input never raises — the run
still succeeds — and it propagates as the NaN sentinel: a missing beta
angle, or missing values in both resolved sag columns, give a missing
required-distance and diff for that row; a missing measured distance
gives a missing diff; but a missing value in only one of the two sag
columns is skipped by the row-wise maximum and that row's
required-distance and diff are still computed.  Rows are computed
independently of one another. -/
theorem C7_amended_nan_propagation
    (df : DataFrame) (d1 d2 d3 d4 : ℕ) (ca cb : String)
    (h1 : pickDistanceCol df d1 d2 = .ok ca)
    (h2 : pickDistanceCol df d3 d4 = .ok cb)
    (h3 : "Beta Angle (°)" ∈ df.cols)
    (h4 : "Distance Between Powerlines" ∈ df.cols)
    (h5 : "Station" ∈ df.cols)
    (h6 : ∃ p, idxmin (df.rows.map (modelDiff d1 d3 ca cb)) = some p)
    (hc1 : whichCircuit d1 ≠ EARTH_WIRE)
    (hc3 : whichCircuit d3 ≠ EARTH_WIRE) :
    ∃ df' s, process_sheet df d1 d2 d3 d4 = .ok (df', s) ∧
      ∀ i r, df.rows.get? i = some r →
        ∃ r', df'.rows.get? i = some r' ∧
          (r "Beta Angle (°)" = none →
            r' "required-distance" = none ∧ r' "diff" = none) ∧
          (r ca = none → r cb = none →
            r' "required-distance" = none ∧ r' "diff" = none) ∧
          (r "Distance Between Powerlines" = none → r' "diff" = none) ∧
          (∀ β y cur, r "Beta Angle (°)" = some β → r ca = none →
            r cb = some y → r "Distance Between Powerlines" = some cur →
            ( r' "required-distance").isSome = true ∧
            ( r' "diff").isSome = true) := by
  obtain ⟨⟨wi, wv⟩, hidx⟩ := h6
  obtain ⟨df', s, hok, -, -, hrows, -⟩ :=
    process_sheet_master df d1 d2 d3 d4 ca cb h1 h2 h3 h4 h5 hidx
  have hEW : ¬ (whichCircuit d1 = EARTH_WIRE ∨ whichCircuit d3 = EARTH_WIRE) :=
    not_or.mpr ⟨hc1, hc3⟩
  refine ⟨df', s, hok, ?_⟩
  intro i r hir
  obtain ⟨r', hr', -, -, -, -, -, hreq, hdiff, -, -⟩ := hrows i r hir
  refine ⟨r', hr', ?_, ?_, ?_, ?_⟩
  · intro hb
    have hrn : r' "required-distance" = none := by
      rw [hreq]
      simp [modelRequired, if_neg hEW, hb, cellK_none, cellMul_none_left,
        cellAdd_none_left]
    refine ⟨hrn, ?_⟩
    rw [hdiff, modelDiff]
    have : modelRequired d1 d3 ca cb r = none := by rw [← hreq]; exact hrn
    rw [this, cellSub_none_right]
  · intro hca hcb
    have hrn : r' "required-distance" = none := by
      rw [hreq]
      simp [modelRequired, if_neg hEW, hca, hcb, cellMax_none_none,
        cellAdd_none_left, cellSqrt_none, cellMul_none_right]
    refine ⟨hrn, ?_⟩
    rw [hdiff, modelDiff]
    have : modelRequired d1 d3 ca cb r = none := by rw [← hreq]; exact hrn
    rw [this, cellSub_none_right]
  · intro hd
    rw [hdiff, modelDiff, hd, cellSub_none_left]
  · intro β y cur hb hca hcb hd
    have hrs : r' "required-distance" =
        some ((-(0.1 / 90) * β + 0.75) * Real.sqrt (y + 2.0) +
          c1val d1 d3 + c2val d1 d3) := by
      rw [hreq]
      simp [modelRequired, if_neg hEW, hb, hca, hcb, cellK_some,
        cellMax_none_some, cellAdd_some_some, cellSqrt_some,
        cellMul_some_some]
    refine ⟨by rw [hrs]; rfl, ?_⟩
    rw [hdiff, modelDiff, hd]
    have : modelRequired d1 d3 ca cb r =
        some ((-(0.1 / 90) * β + 0.75) * Real.sqrt (y + 2.0) +
          c1val d1 d3 + c2val d1 d3) := by rw [← hreq]; exact hrs
    rw [this, cellSub_some_some]
    rfl

/-- Witness for the amended C7: the hypotheses are satisfiable at the
concrete sheet `cdfC7`. -/
theorem C7_amended_nan_propagation_witness :
    ∃ df' s, process_sheet cdfC7 41 42 44 45 = .ok (df', s) := by
  obtain ⟨df', s, hok, -⟩ :=
    C7_amended_nan_propagation cdfC7 41 42 44 45
      "Straight Distance of 41-42" "Straight Distance of 44-45"
      rfl rfl (by decide) (by decide) (by decide) ⟨_, rfl⟩
      (by decide) (by decide)
  exact ⟨df', s, hok⟩

/-! ### Claim C9 -/

/-- C9: even when the earth-wire rule applies (`classify(d1)` or
`classify(d3)` is `EARTH_WIRE`) and the required distance would be the
constant 1.93, `process_sheet` still requires the `Beta Angle (°)`
column and both resolved distance/sag columns: if any of them is absent
it raises an error, and the per-sheet loop of `process_workbook` skips
the whole sheet instead of producing the constant threshold. -/
theorem C9_earth_wire_still_requires_columns
    (df : DataFrame) (d1 d2 d3 d4 : ℕ)
    (hEW : whichCircuit d1 = EARTH_WIRE ∨ whichCircuit d3 = EARTH_WIRE)
    (habs : (∃ e, pickDistanceCol df d1 d2 = .error e) ∨
            (∃ e, pickDistanceCol df d3 d4 = .error e) ∨
            ¬ "Beta Angle (°)" ∈ df.cols) :
    (∃ e, process_sheet df d1 d2 d3 d4 = .error e) ∧
    (∀ nm, parseSheetName nm = some (d1, d2, d3, d4) →
      sheetOutcome ⟨nm, df⟩ = none) := by
  have herr : ∃ e, process_sheet df d1 d2 d3 d4 = .error e := by
    rcases habs with ⟨e, he⟩ | ⟨e, he⟩ | hb
    · exact ⟨e, by simp [process_sheet, he]⟩
    · cases hp : pickDistanceCol df d1 d2 with
      | error e1 => exact ⟨e1, by simp [process_sheet, hp]⟩
      | ok c => exact ⟨e, by simp [process_sheet, hp, he]⟩
    · cases hp : pickDistanceCol df d1 d2 with
      | error e1 => exact ⟨e1, by simp [process_sheet, hp]⟩
      | ok c =>
        cases hq : pickDistanceCol df d3 d4 with
        | error e2 => exact ⟨e2, by simp [process_sheet, hp, hq]⟩
        | ok c2 =>
          refine ⟨"KeyError: Beta Angle (°)", ?_⟩
          have hnb : ¬ "Beta Angle (°)" ∈ addColName df.cols "sag" := by
            rw [mem_addColName]
            rintro (h | h)
            · exact hb h
            · exact absurd h (by decide)
          simp [process_sheet, hp, hq, hnb]
  refine ⟨herr, ?_⟩
  intro nm hnm
  obtain ⟨e, he⟩ := herr
  simp [sheetOutcome, hnm, he]

/-- Witness for C9: the earth-wire sheet `wdfC9` lacks the beta-angle
column, and the sheet named `59-39_41-42` is skipped. -/
theorem C9_earth_wire_still_requires_columns_witness :
    (∃ e, process_sheet wdfC9 59 39 41 42 = .error e) ∧
    sheetOutcome ⟨"59-39_41-42", wdfC9⟩ = none := by
  obtain ⟨herr, hskip⟩ :=
    C9_earth_wire_still_requires_columns wdfC9 59 39 41 42
      (Or.inl (by decide)) (Or.inr (Or.inr (by decide)))
  exact ⟨herr, hskip "59-39_41-42" (by decide)⟩

/-! ### Claim C6 -/

/-- C6: on the non-wind summary path, if the results workbook does not
exist, or exists but lacks one of the required template sheets
(`Result_Dist_Ph-Ph (10ºC)` or `Result_Dist_Ph-EW`), a precondition
error is raised: every workbook whose filename parses fails with exactly
that error before its content is read (the sheets are universally
quantified), and every file of the whole run fails. -/
theorem C6_missing_results_workbook_fatal
    (env : ResultsEnv)
    (h : env.pathExists = false ∨ ¬ PH_PH_SHEET ∈ env.sheetNames ∨
      ¬ PH_EW_SHEET ∈ env.sheetNames) :
    (∃ e, openResultsWb env = .error e) ∧
    (∀ fileName sheets m, loadMetadata fileName = .ok m →
      ∃ e, processWorkbook env fileName sheets = .error e ∧
        openResultsWb env = .error e) ∧
    (∀ files res, res ∈ mainRun env files → ∃ e, res = .error e) := by
  have hopen : ∃ e, openResultsWb env = .error e := by
    rcases h with h | h | h
    · exact ⟨_, by unfold openResultsWb; rw [if_pos h]⟩
    · by_cases hp : env.pathExists = false
      · exact ⟨_, by unfold openResultsWb; rw [if_pos hp]⟩
      · have hm : ¬ ([PH_PH_SHEET, PH_EW_SHEET].filter
            (fun n => ¬ n ∈ env.sheetNames) = []) := by
          intro hemp
          have hmem : PH_PH_SHEET ∈ [PH_PH_SHEET, PH_EW_SHEET].filter
              (fun n => ¬ n ∈ env.sheetNames) := by
            simp [List.mem_filter, h]
          rw [hemp] at hmem
          simp at hmem
        refine ⟨"Results workbook is missing required template sheet(s).", ?_⟩
        unfold openResultsWb
        rw [if_neg hp]
        simp only [hm, if_false]
    · by_cases hp : env.pathExists = false
      · exact ⟨_, by unfold openResultsWb; rw [if_pos hp]⟩
      · have hm : ¬ ([PH_PH_SHEET, PH_EW_SHEET].filter
            (fun n => ¬ n ∈ env.sheetNames) = []) := by
          intro hemp
          have hmem : PH_EW_SHEET ∈ [PH_PH_SHEET, PH_EW_SHEET].filter
              (fun n => ¬ n ∈ env.sheetNames) := by
            simp [List.mem_filter, h]
          rw [hemp] at hmem
          simp at hmem
        refine ⟨"Results workbook is missing required template sheet(s).", ?_⟩
        unfold openResultsWb
        rw [if_neg hp]
        simp only [hm, if_false]
  obtain ⟨e0, he0⟩ := hopen
  refine ⟨⟨e0, he0⟩, ?_, ?_⟩
  · intro fileName sheets m hml
    exact ⟨e0, by simp [processWorkbook, hml, he0], he0⟩
  · intro files res hres
    obtain ⟨f, -, rfl⟩ := List.mem_map.mp hres
    cases hml : loadMetadata f.1 with
    | error e => exact ⟨e, by simp [processWorkbook, hml]⟩
    | ok m => exact ⟨e0, by simp [processWorkbook, hml, he0]⟩

/-- Witness for C6: a missing results workbook fails a concrete file run
whose name parses. -/
theorem C6_missing_results_workbook_fatal_witness :
    ∃ e, processWorkbook ⟨false, []⟩ "Cond_10C_TR1730a001_002.xlsx" [] =
      .error e := by
  obtain ⟨-, hsecond, -⟩ :=
    C6_missing_results_workbook_fatal ⟨false, []⟩ (Or.inl rfl)
  obtain ⟨e, hpe, -⟩ :=
    hsecond "Cond_10C_TR1730a001_002.xlsx" [] ("TR1730a001", "002") rfl
  exact ⟨e, hpe⟩

/-! ### Claim C4 -/

/-- C4: in the wind-pressure variant, for every sheet whose parsed
endpoint codes `d1` and `d3` are in the same circuit group the derived
columns are `C3 = 1.35` and `C4 = 0`, otherwise `C3 = 0` and
`C4 = 1.60`, and in both cases the `Required distance` column equals
`max(C3, C4)` for every row. -/
theorem C4_wind_required_distance
    (df : DataFrame) (name : String) (d1 d3 : String)
    (hp : windParseDigits name = some (d1, d3)) :
    ∃ df', add_distance_columns df name = .ok df' ∧
      df'.rows.length = df.rows.length ∧
      ∀ i r, df.rows.get? i = some r →
        ∃ r', df'.rows.get? i = some r' ∧
          r' "C3" = some (if sameGroupB d1 d3 then 1.35 else 0) ∧
          r' "C4" = some (if sameGroupB d1 d3 then 0 else 1.60) ∧
          r' "Required distance" = cellMax ( r' "C3") ( r' "C4") ∧
          r' "Required distance" =
            some (max (if sameGroupB d1 d3 then 1.35 else 0)
              (if sameGroupB d1 d3 then 0 else 1.60)) := by
  have heq : add_distance_columns df name =
      .ok (setColF (setColF (setColF df "C3"
        (fun _ => some (if sameGroupB d1 d3 then 1.35 else 0))) "C4"
        (fun _ => some (if sameGroupB d1 d3 then 0 else 1.60)))
        "Required distance" (fun r => cellMax (r "C3") (r "C4"))) := by
    simp [add_distance_columns, hp]
  refine ⟨_, heq, ?_, ?_⟩
  · simp [setColF]
  · intro i r hir
    simp only [setColF_rows, List.map_map, List.get?_map, hir,
      Option.map_some']
    refine ⟨_, rfl, ?_, ?_, ?_, ?_⟩
    · simp [Function.comp, updR]
    · simp [Function.comp, updR]
    · simp [Function.comp, updR]
    · simp [Function.comp, updR, cellMax_some_some]

/-- Witness for C4: a concrete same-group wind sheet name parses and the
columns are added. -/
theorem C4_wind_required_distance_witness :
    ∃ df', add_distance_columns wdfC4 "41-21_W650_42-22_W390" = .ok df' := by
  obtain ⟨df', hok, -⟩ :=
    C4_wind_required_distance wdfC4 "41-21_W650_42-22_W390" "41" "42"
      (by decide)
  exact ⟨df', hok⟩



/-! ### Claim C8 -/

theorem String_head_ne {s t : String} {c1 c2 : Char}
    (hs : s.data.head? = some c1) (ht : t.data.head? = some c2)
    (hne : c1 ≠ c2) : s ≠ t := by
  intro he
  subst he
  rw [hs] at ht
  exact hne (Option.some.inj ht)

theorem mem_foldl_addColName (names cols : List String) (c : String) :
    c ∈ names.foldl addColName cols ↔ c ∈ cols ∨ c ∈ names := by
  induction names generalizing cols with
  | nil => simp
  | cons n ns ih =>
    rw [List.foldl_cons, ih, mem_addColName]
    constructor
    · rintro ((h | h) | h)
      · exact Or.inl h
      · exact Or.inr (by simp [h])
      · exact Or.inr (by simp [h])
    · rintro (h | h)
      · exact Or.inl (Or.inl h)
      · rcases (by simpa using h : c = n ∨ c ∈ ns) with rfl | h
        · exact Or.inl (Or.inr rfl)
        · exact Or.inr h

theorem candidate_ne_aug (a b : ℕ) (c : String)
    (hmem : c ∈ distCandidates a b) :
    c ≠ "sag" ∧ c ≠ "K" ∧ c ≠ "LK" ∧ c ≠ "C1" ∧ c ≠ "C2" ∧
    c ≠ "required-distance" ∧ c ≠ "diff" ∧ c ≠ "worst-case" := by
  have hmem' : c = "Straight Distance of " ++ toString a ++ "-" ++ toString b ∨
      c = "Sag of " ++ toString a ++ "-" ++ toString b := by
    simpa [distCandidates] using hmem
  rcases hmem' with rfl | rfl
  · have hhead : ("Straight Distance of " ++ toString a ++ "-"
        ++ toString b).data.head? = some 'S' := by
      rw [String.data_append]
      rfl
    exact ⟨String_head_ne hhead rfl (by decide),
      String_head_ne hhead rfl (by decide),
      String_head_ne hhead rfl (by decide),
      String_head_ne hhead rfl (by decide),
      String_head_ne hhead rfl (by decide),
      String_head_ne hhead rfl (by decide),
      String_head_ne hhead rfl (by decide),
      String_head_ne hhead rfl (by decide)⟩
  · have hhead : ("Sag of " ++ toString a ++ "-"
        ++ toString b).data.head? = some 'S' := by
      rw [String.data_append]
      rfl
    exact ⟨String_head_ne hhead rfl (by decide),
      String_head_ne hhead rfl (by decide),
      String_head_ne hhead rfl (by decide),
      String_head_ne hhead rfl (by decide),
      String_head_ne hhead rfl (by decide),
      String_head_ne hhead rfl (by decide),
      String_head_ne hhead rfl (by decide),
      String_head_ne hhead rfl (by decide)⟩

theorem pick_ne_aug (df : DataFrame) (a b : ℕ) (c : String)
    (h : pickDistanceCol df a b = .ok c) :
    c ≠ "sag" ∧ c ≠ "K" ∧ c ≠ "LK" ∧ c ≠ "C1" ∧ c ≠ "C2" ∧
    c ≠ "required-distance" ∧ c ≠ "diff" ∧ c ≠ "worst-case" := by
  have hmem : c ∈ distCandidates a b := by
    unfold pickDistanceCol at h
    cases hf : (distCandidates a b).find? (fun c => df.cols.contains c) with
    | none => rw [hf] at h; simp at h
    | some c' =>
      rw [hf] at h
      simp only [Except.ok.injEq] at h
      subst h
      exact List.mem_of_find?_eq_some hf
  exact candidate_ne_aug a b c hmem

theorem pickDistanceCol_stable (df df' : DataFrame) (a b : ℕ)
    (hiff : ∀ c, c ∈ distCandidates a b → (c ∈ df'.cols ↔ c ∈ df.cols)) :
    pickDistanceCol df' a b = pickDistanceCol df a b := by
  have h1 := hiff ("Straight Distance of " ++ toString a ++ "-"
    ++ toString b) (by simp [distCandidates])
  have h2 := hiff ("Sag of " ++ toString a ++ "-" ++ toString b)
    (by simp [distCandidates])
  unfold pickDistanceCol distCandidates
  by_cases hx : ("Straight Distance of " ++ toString a ++ "-"
      ++ toString b) ∈ df.cols
  · have b1 : df.cols.contains ("Straight Distance of " ++ toString a
        ++ "-" ++ toString b) = true := List.elem_iff.mpr hx
    have b1' : df'.cols.contains ("Straight Distance of " ++ toString a
        ++ "-" ++ toString b) = true := List.elem_iff.mpr (h1.mpr hx)
    simp only [List.find?, b1, b1']
  · have b1 : df.cols.contains ("Straight Distance of " ++ toString a
        ++ "-" ++ toString b) = false := by
      cases hcb : df.cols.contains ("Straight Distance of " ++ toString a
          ++ "-" ++ toString b) with
      | false => rfl
      | true => exact absurd (List.elem_iff.mp hcb) hx
    have b1' : df'.cols.contains ("Straight Distance of " ++ toString a
        ++ "-" ++ toString b) = false := by
      cases hcb : df'.cols.contains ("Straight Distance of " ++ toString a
          ++ "-" ++ toString b) with
      | false => rfl
      | true => exact absurd (h1.mp (List.elem_iff.mp hcb)) hx
    by_cases hy : ("Sag of " ++ toString a ++ "-" ++ toString b) ∈ df.cols
    · have b2 : df.cols.contains ("Sag of " ++ toString a ++ "-"
          ++ toString b) = true := List.elem_iff.mpr hy
      have b2' : df'.cols.contains ("Sag of " ++ toString a ++ "-"
          ++ toString b) = true := List.elem_iff.mpr (h2.mpr hy)
      simp only [List.find?, b1, b1', b2, b2']
    · have b2 : df.cols.contains ("Sag of " ++ toString a ++ "-"
          ++ toString b) = false := by
        cases hcb : df.cols.contains ("Sag of " ++ toString a ++ "-"
            ++ toString b) with
        | false => rfl
        | true => exact absurd (List.elem_iff.mp hcb) hy
      have b2' : df'.cols.contains ("Sag of " ++ toString a ++ "-"
          ++ toString b) = false := by
        cases hcb : df'.cols.contains ("Sag of " ++ toString a ++ "-"
            ++ toString b) with
        | false => rfl
        | true => exact absurd (h2.mp (List.elem_iff.mp hcb)) hy
      simp only [List.find?, b1, b1', b2, b2']

theorem modelDiff_congr (d1 d3 : ℕ) (ca cb : String) {r r' : Row}
    (hbeta : r' "Beta Angle (°)" = r "Beta Angle (°)")
    (hca : r' ca = r ca) (hcb : r' cb = r cb)
    (hdist : r' "Distance Between Powerlines" =
      r "Distance Between Powerlines") :
    modelDiff d1 d3 ca cb r' = modelDiff d1 d3 ca cb r := by
  simp [modelDiff, modelRequired, cellK, hbeta, hca, hcb, hdist]

/-- C8: the worst-case computation is idempotent — applying
`process_sheet` to the already-augmented output of `process_sheet` (the
input columns of which are unchanged) succeeds again, selects the same
worst-case row index and produces the same worst-case diff value as the
first application. -/
theorem C8_idempotent_worst_case
    (df : DataFrame) (d1 d2 d3 d4 : ℕ) (ca cb : String)
    (h1 : pickDistanceCol df d1 d2 = .ok ca)
    (h2 : pickDistanceCol df d3 d4 = .ok cb)
    (h3 : "Beta Angle (°)" ∈ df.cols)
    (h4 : "Distance Between Powerlines" ∈ df.cols)
    (h5 : "Station" ∈ df.cols)
    (h6 : ∃ p, idxmin (df.rows.map (modelDiff d1 d3 ca cb)) = some p) :
    ∃ df₁ s₁ df₂ s₂ wi wv,
      process_sheet df d1 d2 d3 d4 = .ok (df₁, s₁) ∧
      process_sheet df₁ d1 d2 d3 d4 = .ok (df₂, s₂) ∧
      s₁.row_num = wi + 2 ∧ s₂.row_num = wi + 2 ∧
      (∃ r₁, df₁.rows.get? wi = some r₁ ∧ r₁ "worst-case" = some wv) ∧
      (∃ r₂, df₂.rows.get? wi = some r₂ ∧ r₂ "worst-case" = some wv) := by
  obtain ⟨⟨wi, wv⟩, hidx⟩ := h6
  obtain ⟨df₁, s₁, hok₁, hcols₁, hlen₁, hrows₁, hsum₁⟩ :=
    process_sheet_master df d1 d2 d3 d4 ca cb h1 h2 h3 h4 h5 hidx
  have hcane := pick_ne_aug df d1 d2 ca h1
  have hcbne := pick_ne_aug df d3 d4 cb h2
  -- membership of any non-written column is unchanged by the run
  have hiffaux : ∀ c, (c ≠ "sag" ∧ c ≠ "K" ∧ c ≠ "LK" ∧ c ≠ "C1" ∧
      c ≠ "C2" ∧ c ≠ "required-distance" ∧ c ≠ "diff" ∧
      c ≠ "worst-case") → (c ∈ df₁.cols ↔ c ∈ df.cols) := by
    intro c hc
    rw [hcols₁, mem_foldl_addColName]
    constructor
    · rintro (h | h)
      · exact h
      · exfalso
        simp only [augNames, List.mem_cons, List.not_mem_nil, or_false]
          at h
        rcases h with h | h | h | h | h | h | h | h
        · exact hc.1 h
        · exact hc.2.1 h
        · exact hc.2.2.1 h
        · exact hc.2.2.2.1 h
        · exact hc.2.2.2.2.1 h
        · exact hc.2.2.2.2.2.1 h
        · exact hc.2.2.2.2.2.2.1 h
        · exact hc.2.2.2.2.2.2.2 h
    · exact fun h => Or.inl h
  have h1' : pickDistanceCol df₁ d1 d2 = .ok ca := by
    rw [pickDistanceCol_stable df df₁ d1 d2
      (fun c hcmem => hiffaux c (candidate_ne_aug d1 d2 c hcmem))]
    exact h1
  have h2' : pickDistanceCol df₁ d3 d4 = .ok cb := by
    rw [pickDistanceCol_stable df df₁ d3 d4
      (fun c hcmem => hiffaux c (candidate_ne_aug d3 d4 c hcmem))]
    exact h2
  have h3' : "Beta Angle (°)" ∈ df₁.cols := by
    rw [hcols₁, mem_foldl_addColName]
    exact Or.inl h3
  have h4' : "Distance Between Powerlines" ∈ df₁.cols := by
    rw [hcols₁, mem_foldl_addColName]
    exact Or.inl h4
  have h5' : "Station" ∈ df₁.cols := by
    rw [hcols₁, mem_foldl_addColName]
    exact Or.inl h5
  have hmapeq : df₁.rows.map (modelDiff d1 d3 ca cb) =
      df.rows.map (modelDiff d1 d3 ca cb) := by
    apply List.ext
    intro n
    rw [List.get?_map, List.get?_map]
    cases hn : df.rows.get? n with
    | none =>
      have hn1 : df₁.rows.get? n = none := by
        rw [List.get?_eq_none] at hn ⊢
        rw [hlen₁]
        exact hn
      rw [hn1]
    | some r =>
      obtain ⟨r₁, hr₁, -, -, -, -, -, -, -, -, hoth⟩ := hrows₁ n r hn
      rw [hr₁]
      simp only [Option.map_some', Option.some.injEq]
      apply modelDiff_congr
      · exact hoth "Beta Angle (°)" (by decide) (by decide) (by decide)
          (by decide) (by decide) (by decide) (by decide) (by decide)
      · exact hoth ca hcane.1 hcane.2.1 hcane.2.2.1 hcane.2.2.2.1
          hcane.2.2.2.2.1 hcane.2.2.2.2.2.1 hcane.2.2.2.2.2.2.1
          hcane.2.2.2.2.2.2.2
      · exact hoth cb hcbne.1 hcbne.2.1 hcbne.2.2.1 hcbne.2.2.2.1
          hcbne.2.2.2.2.1 hcbne.2.2.2.2.2.1 hcbne.2.2.2.2.2.2.1
          hcbne.2.2.2.2.2.2.2
      · exact hoth "Distance Between Powerlines" (by decide) (by decide)
          (by decide) (by decide) (by decide) (by decide) (by decide)
          (by decide)
  have hidx₁ : idxmin (df₁.rows.map (modelDiff d1 d3 ca cb)) =
      some (wi, wv) := by
    rw [hmapeq]
    exact hidx
  obtain ⟨df₂, s₂, hok₂, -, -, hrows₂, hsum₂⟩ :=
    process_sheet_master df₁ d1 d2 d3 d4 ca cb h1' h2' h3' h4' h5' hidx₁
  obtain ⟨rw1, hrw1, hrownum₁, -, -, -, -, -, -, -, -, -, -⟩ := hsum₁
  obtain ⟨rw2, hrw2, hrownum₂, -, -, -, -, -, -, -, -, -, -⟩ := hsum₂
  obtain ⟨r₁w, hr₁w, -, -, -, -, -, -, -, hwc₁, -⟩ := hrows₁ wi rw1 hrw1
  obtain ⟨r₂w, hr₂w, -, -, -, -, -, -, -, hwc₂, -⟩ := hrows₂ wi rw2 hrw2
  exact ⟨df₁, s₁, df₂, s₂, wi, wv, hok₁, hok₂, hrownum₁, hrownum₂,
    ⟨r₁w, hr₁w, by rw [hwc₁, if_pos rfl]⟩,
    ⟨r₂w, hr₂w, by rw [hwc₂, if_pos rfl]⟩⟩

/-- Witness for C8: both runs succeed on a concrete sheet. -/
theorem C8_idempotent_worst_case_witness :
    ∃ df₁ s₁ df₂ s₂, process_sheet wdfC1 41 42 43 44 = .ok (df₁, s₁) ∧
      process_sheet df₁ 41 42 43 44 = .ok (df₂, s₂) := by
  obtain ⟨df₁, s₁, df₂, s₂, wi, wv, hok₁, hok₂, -⟩ :=
    C8_idempotent_worst_case wdfC1 41 42 43 44
      "Straight Distance of 41-42" "Straight Distance of 43-44"
      rfl rfl (by decide) (by decide) (by decide) ⟨_, rfl⟩
  exact ⟨df₁, s₁, df₂, s₂, hok₁, hok₂⟩


/-! ### Claim C10 -/

theorem isClassC_ne_us {c : Char} (h : isClassC c = true) : ¬ (c = '_') := by
  intro he
  subst he
  exact absurd h (by decide)

theorem isClassC_ne_nl {c : Char} (h : isClassC c = true) : ¬ (c = '\n') := by
  intro he
  subst he
  exact absurd h (by decide)

theorem takeDigits_append {p : List Char}
    (hp : ∀ c ∈ p, isDigitC c = true) {c0 : Char}
    (hc : isDigitC c0 = false) (rest : List Char) :
    takeDigits (p ++ c0 :: rest) = (p, c0 :: rest) := by
  induction p with
  | nil => simp [takeDigits, hc]
  | cons c cs ih =>
    have hcd : isDigitC c = true := hp c (by simp)
    have ihr := ih (fun x hx => hp x (by simp [hx]))
    simp [takeDigits, hcd, ihr]

theorem takeDigits_all {p : List Char}
    (hp : ∀ c ∈ p, isDigitC c = true) : takeDigits p = (p, []) := by
  induction p with
  | nil => rfl
  | cons c cs ih =>
    have hcd : isDigitC c = true := hp c (by simp)
    have ihr := ih (fun x hx => hp x (by simp [hx]))
    simp [takeDigits, hcd, ihr]

theorem takeClass_append {p : List Char}
    (hp : ∀ c ∈ p, isClassC c = true) {c0 : Char}
    (hc : isClassC c0 = false) (rest : List Char) :
    takeClass (p ++ c0 :: rest) = (p, c0 :: rest) := by
  induction p with
  | nil => simp [takeClass, hc]
  | cons c cs ih =>
    have hcd : isClassC c = true := hp c (by simp)
    have ihr := ih (fun x hx => hp x (by simp [hx]))
    simp [takeClass, hcd, ihr]

theorem swapTail_exact (b p2 : List Char)
    (hb : ∀ c ∈ b, isClassC c = true) (hb0 : b ≠ [])
    (hp2 : ∀ c ∈ p2, isDigitC c = true) (hp20 : p2 ≠ []) :
    swapTail ('_' :: (b ++ '_' :: 'W' :: p2)) =
      some (b ++ '_' :: 'W' :: p2) := by
  obtain ⟨bh, bt, rfl⟩ := List.exists_cons_of_ne_nil hb0
  obtain ⟨ph, pt, rfl⟩ := List.exists_cons_of_ne_nil hp20
  have ht1 : takeClass ((bh :: bt) ++ '_' :: 'W' :: ph :: pt) =
      (bh :: bt, '_' :: 'W' :: ph :: pt) :=
    takeClass_append hb (by decide) _
  have ht2 : takeDigits (ph :: pt) = (ph :: pt, []) := takeDigits_all hp2
  simp only [swapTail]
  rw [ht1]
  simp [ht2]

theorem swapScan_skip (acc mid rest : List Char)
    (hmid : ∀ c ∈ mid, isClassC c = true) :
    swapScan acc (mid ++ rest) = swapScan (acc ++ mid) rest := by
  induction mid generalizing acc with
  | nil => simp
  | cons c cs ih =>
    have hc : isClassC c = true := hmid c (by simp)
    have hcu := isClassC_ne_us hc
    have hcn := isClassC_ne_nl hc
    show swapScan acc (c :: (cs ++ rest)) = _
    simp only [swapScan, if_neg hcu, if_neg hcn, Option.orElse]
    rw [ih (acc ++ [c]) (fun x hx => hmid x (by simp [hx]))]
    simp [List.append_assoc]

theorem swapScan_hit (acc p1 b p2 : List Char)
    (hp1 : ∀ c ∈ p1, isDigitC c = true) (hp10 : p1 ≠ [])
    (hb : ∀ c ∈ b, isClassC c = true) (hb0 : b ≠ [])
    (hp2 : ∀ c ∈ p2, isDigitC c = true) (hp20 : p2 ≠ []) :
    swapScan acc ('_' :: 'W' :: (p1 ++ '_' :: (b ++ '_' :: 'W' :: p2))) =
      some (acc ++ '_' :: 'W' :: p1, b ++ '_' :: 'W' :: p2) := by
  obtain ⟨p1h, p1t, rfl⟩ := List.exists_cons_of_ne_nil hp10
  have ht : takeDigits ((p1h :: p1t) ++ '_' :: (b ++ '_' :: 'W' :: p2)) =
      (p1h :: p1t, '_' :: (b ++ '_' :: 'W' :: p2)) :=
    takeDigits_append hp1 (by decide) _
  have hst := swapTail_exact b p2 hb hb0 hp2 hp20
  simp only [swapScan]
  rw [ht]
  simp [hst, Option.orElse]

theorem swap_sheet_name_wellformed (a p1 b p2 : List Char)
    (ha : ∀ c ∈ a, isClassC c = true) (ha0 : a ≠ [])
    (hp1 : ∀ c ∈ p1, isDigitC c = true) (hp10 : p1 ≠ [])
    (hb : ∀ c ∈ b, isClassC c = true) (hb0 : b ≠ [])
    (hp2 : ∀ c ∈ p2, isDigitC c = true) (hp20 : p2 ≠ []) :
    swap_sheet_name
      (String.mk (a ++ '_' :: 'W' :: (p1 ++ '_' :: (b ++ '_' :: 'W' :: p2)))) =
      String.mk (b ++ '_' :: 'W' :: (p2 ++ '_' :: (a ++ '_' :: 'W' :: p1))) := by
  obtain ⟨ah, at', rfl⟩ := List.exists_cons_of_ne_nil ha0
  have han := isClassC_ne_nl (ha ah (by simp))
  have hskip := swapScan_skip [ah] at'
    ('_' :: 'W' :: (p1 ++ '_' :: (b ++ '_' :: 'W' :: p2)))
    (fun c hc => ha c (by simp [hc]))
  have hhit := swapScan_hit ([ah] ++ at') p1 b p2 hp1 hp10 hb hb0 hp2 hp20
  show swap_sheet_name
      (String.mk (ah :: (at' ++ '_' :: 'W' :: (p1 ++ '_' :: (b ++ '_' :: 'W' :: p2))))) = _
  simp only [swap_sheet_name, if_neg han, hskip, hhit]
  congr 1
  simp [List.append_assoc]

/-- C10 counterexample: the name `1-1_W1_2-2_W2X` does not match the
grammar `<a>_W<p1>_<b>_W<p2>` (its tail `2X` is not a digit string), yet
`swap_sheet_name` does not return it unchanged — the regex matches a
proper prefix and the trailing `X` is dropped — refuting the claim that
any name not matching the grammar is returned unchanged. -/
theorem C10_swap_counterexample :
    wellFormedWindName "1-1_W1_2-2_W2X" = false ∧
    swap_sheet_name "1-1_W1_2-2_W2X" = "2-2_W2_1-1_W1" ∧
    ¬ (swap_sheet_name "1-1_W1_2-2_W2X" = "1-1_W1_2-2_W2X") :=
  ⟨by decide, by decide, by decide⟩

/-- Soundness of `wellFormedWindName` for the grammar of claim C10:
every name of the form `<a>_W<p1>_<b>_W<p2>` (with `a`, `b` non-empty
strings over digits and hyphens and `p1`, `p2` non-empty digit strings)
satisfies the predicate, so a name on which the predicate is `false` is
outside the grammar. -/
theorem wellFormedWindName_of_decomp (a p1 b p2 : List Char)
    (ha : ∀ c ∈ a, isClassC c = true) (ha0 : a ≠ [])
    (hp1 : ∀ c ∈ p1, isDigitC c = true) (hp10 : p1 ≠ [])
    (hb : ∀ c ∈ b, isClassC c = true) (hb0 : b ≠ [])
    (hp2 : ∀ c ∈ p2, isDigitC c = true) (hp20 : p2 ≠ []) :
    wellFormedWindName
      (String.mk (a ++ '_' :: 'W' :: (p1 ++ '_' :: (b ++ '_' :: 'W' :: p2)))) =
      true := by
  obtain ⟨ah, at', rfl⟩ := List.exists_cons_of_ne_nil ha0
  obtain ⟨p1h, p1t, rfl⟩ := List.exists_cons_of_ne_nil hp10
  obtain ⟨bh, bt, rfl⟩ := List.exists_cons_of_ne_nil hb0
  obtain ⟨p2h, p2t, rfl⟩ := List.exists_cons_of_ne_nil hp20
  have ht1 : takeClass ((ah :: at') ++ '_' :: 'W' ::
      ((p1h :: p1t) ++ '_' :: ((bh :: bt) ++ '_' :: 'W' :: p2h :: p2t))) =
      (ah :: at', '_' :: 'W' ::
        ((p1h :: p1t) ++ '_' :: ((bh :: bt) ++ '_' :: 'W' :: p2h :: p2t))) :=
    takeClass_append ha (by decide) _
  have ht2 : takeDigits ((p1h :: p1t) ++ '_' ::
      ((bh :: bt) ++ '_' :: 'W' :: p2h :: p2t)) =
      (p1h :: p1t, '_' :: ((bh :: bt) ++ '_' :: 'W' :: p2h :: p2t)) :=
    takeDigits_append hp1 (by decide) _
  have ht3 : takeClass ((bh :: bt) ++ '_' :: 'W' :: p2h :: p2t) =
      (bh :: bt, '_' :: 'W' :: p2h :: p2t) :=
    takeClass_append hb (by decide) _
  have ht4 : takeDigits (p2h :: p2t) = (p2h :: p2t, []) := takeDigits_all hp2
  simp only [List.cons_append] at ht1 ht2 ht3
  simp [wellFormedWindName, ht1, ht2, ht3, ht4]

/-- C10 (amended): `swap_sheet_name` exchanges the two segments of every
well-formed name `<a>_W<p1>_<b>_W<p2>` (`a`, `b` strings of digits and
hyphens, `p1`, `p2` digit strings, all non-empty) and applying it twice
returns the original name; and whenever its pattern fails to match (at
any position) the input is returned unchanged.  (As stated the claim is
false: a name outside the grammar may still match the pattern on a
proper prefix, in which case the segments are swapped and trailing text
is dropped — see the counterexample.) -/
theorem C10_swap_involution_amended :
    (∀ a p1 b p2 : List Char,
      (∀ c ∈ a, isClassC c = true) → a ≠ [] →
      (∀ c ∈ p1, isDigitC c = true) → p1 ≠ [] →
      (∀ c ∈ b, isClassC c = true) → b ≠ [] →
      (∀ c ∈ p2, isDigitC c = true) → p2 ≠ [] →
      swap_sheet_name (String.mk
        (a ++ '_' :: 'W' :: (p1 ++ '_' :: (b ++ '_' :: 'W' :: p2)))) =
        String.mk (b ++ '_' :: 'W' :: (p2 ++ '_' :: (a ++ '_' :: 'W' :: p1))) ∧
      swap_sheet_name (swap_sheet_name (String.mk
        (a ++ '_' :: 'W' :: (p1 ++ '_' :: (b ++ '_' :: 'W' :: p2))))) =
        String.mk (a ++ '_' :: 'W' :: (p1 ++ '_' :: (b ++ '_' :: 'W' :: p2)))) ∧
    (∀ s, swapMatches s = false → swap_sheet_name s = s) := by
  constructor
  · intro a p1 b p2 ha ha0 hp1 hp10 hb hb0 hp2 hp20
    have h1 := swap_sheet_name_wellformed a p1 b p2 ha ha0 hp1 hp10
      hb hb0 hp2 hp20
    have h2 := swap_sheet_name_wellformed b p2 a p1 hb hb0 hp2 hp20
      ha ha0 hp1 hp10
    exact ⟨h1, by rw [h1, h2]⟩
  · intro s hm
    unfold swapMatches at hm
    unfold swap_sheet_name
    cases hd : s.data with
    | nil => rfl
    | cons c cs =>
      rw [hd] at hm
      by_cases hc : c = '\n'
      · simp [hc]
      · cases hsw : swapScan [c] cs with
        | some p => simp [hc, hsw] at hm
        | none => simp [hc, hsw]

/-- Witness for the amended C10: a concrete well-formed wind sheet name
is swapped and restored, and a non-matching name is unchanged. -/
theorem C10_swap_involution_amended_witness :
    swap_sheet_name "41-21_W650_42-22_W390" = "42-22_W390_41-21_W650" ∧
    swap_sheet_name (swap_sheet_name "41-21_W650_42-22_W390") =
      "41-21_W650_42-22_W390" ∧
    swap_sheet_name "no wind pattern here" = "no wind pattern here" := by
  obtain ⟨h1, h2⟩ := C10_swap_involution_amended
  have ha := h1 ['4', '1', '-', '2', '1'] ['6', '5', '0']
    ['4', '2', '-', '2', '2'] ['3', '9', '0']
    (by decide) (by decide) (by decide) (by decide)
    (by decide) (by decide) (by decide) (by decide)
  exact ⟨ha.1, ha.2, h2 "no wind pattern here" (by decide)⟩

end PD
